import Mathlib

/-!
# Thread status routines for ARM (`osfmk/arm/status.c`)

A shallow embedding of the thread machine-state access layer and the proofs of
its specification.  Machine words are natural numbers; every place where the C
code converts to a narrower or unsigned type is written as an explicit
reduction modulo `2 ^ 32`.
-/

namespace ArmStatus

/-! ## Machine words -/

/-- Bitwise complement of an `int` expression as seen by a 32-bit unsigned
operand (`~e` used as a mask of a `uint32_t`). -/
def not32 (e : Nat) : Nat := 2 ^ 32 - 1 - e % 2 ^ 32

/-- The source's `#define USRSTACK 0x2FE00000`. -/
def USRSTACK : Nat := 0x2FE00000

/-- The function `sanitise_cpsr` of the source (lines 98-109): clear the bad bits off the
CPSR and set the mode bits to `0x10` (user mode). -/
def sanitise_cpsr (cpsr : Nat) : Nat :=
  let final_cpsr := cpsr &&& not32 (1 <<< 9)      -- Data endianness
  let final_cpsr := final_cpsr &&& not32 (1 <<< 7) -- IRQ
  let final_cpsr := final_cpsr &&& not32 (1 <<< 6) -- FIQ
  let final_cpsr := final_cpsr &&& 0xFFFFFFE0      -- Mode bits
  let final_cpsr := final_cpsr ||| 0x10            -- Set user mode
  final_cpsr

/-- Conversion of a C `int` to `uint32_t` (value modulo `2 ^ 32`), as on the
assignment of an `int` to a 32-bit register field. -/
def int_to_u32 (v : Int) : Nat := (v % 2 ^ 32).toNat

/-! ## Status codes, flavors and sizes -/

/-- The two `kern_return_t` values this file returns. -/
inductive kern_return_t
  | KERN_SUCCESS
  | KERN_INVALID_ARGUMENT
  deriving DecidableEq, Repr

open kern_return_t

/-- Header constants that `status.c` uses but does not define (`mach/thread_status.h`,
`mach/vm_param.h`): the flavor identifiers, the debug-state size and the lowest
user address.  The flavor identifiers are the labels of one `switch`, hence
pairwise distinct, and they are non-negative `int` constants. -/
structure thread_status_consts where
  THREAD_STATE_FLAVOR_LIST : Nat
  THREAD_STATE_FLAVOR_LIST_NEW : Nat
  ARM_THREAD_STATE : Nat
  ARM_VFP_STATE : Nat
  ARM_EXCEPTION_STATE : Nat
  ARM_DEBUG_STATE : Nat
  ARM_DEBUG_STATE_COUNT : Nat
  VM_MIN_ADDRESS : Nat
  labels_nodup : [THREAD_STATE_FLAVOR_LIST, THREAD_STATE_FLAVOR_LIST_NEW, ARM_THREAD_STATE,
    ARM_VFP_STATE, ARM_EXCEPTION_STATE, ARM_DEBUG_STATE].Nodup
  labels_int : ∀ v ∈ [THREAD_STATE_FLAVOR_LIST, THREAD_STATE_FLAVOR_LIST_NEW, ARM_THREAD_STATE,
    ARM_VFP_STATE, ARM_EXCEPTION_STATE, ARM_DEBUG_STATE], v < 2 ^ 31

/-- One admissible choice of the header constants (the values of the Mach headers
for 32-bit ARM), used to evaluate the model on concrete inputs. -/
def mach_consts : thread_status_consts where
  THREAD_STATE_FLAVOR_LIST := 0
  THREAD_STATE_FLAVOR_LIST_NEW := 128
  ARM_THREAD_STATE := 1
  ARM_VFP_STATE := 2
  ARM_EXCEPTION_STATE := 3
  ARM_DEBUG_STATE := 4
  ARM_DEBUG_STATE_COUNT := 64
  VM_MIN_ADDRESS := 0
  labels_nodup := by decide
  labels_int := by decide

/-- Modelled from the spec: the macro `ARM_THREAD_STATE_COUNT` (not in the source
file) is the number of 32-bit words of the general-purpose state: 13 general
registers, stack pointer, link register, program counter, control word. -/
def ARM_THREAD_STATE_COUNT : Nat := 17

/-- Modelled from the spec: the macro `ARM_VFP_STATE_COUNT` is the number of words of
the floating-point state: 64 registers and a control word. -/
def ARM_VFP_STATE_COUNT : Nat := 65

/-- Modelled from the spec: the macro `ARM_EXCEPTION_STATE_COUNT` is the number of
words of the exception state: three fields. -/
def ARM_EXCEPTION_STATE_COUNT : Nat := 3

/-! ## Data model -/

/-- A caller buffer `thread_state_t`: an array of `natural_t` words, by index. -/
abbrev thread_state_t := Nat → Nat

/-- Modelled from the spec: the declaration of `struct arm_thread_state` is not in
the source file; its fields are the ones `status.c` names (`r[13]`, `sp`, `lr`,
`pc`, `cpsr`), each one 32-bit word. -/
structure arm_thread_state where
  r : Fin 13 → Nat
  sp : Nat
  lr : Nat
  pc : Nat
  cpsr : Nat

/-- Modelled from the spec: `struct arm_vfp_state`, 64 registers `r[64]` and `fpscr`. -/
structure arm_vfp_state where
  r : Fin 64 → Nat
  fpscr : Nat

/-- Modelled from the spec: `struct arm_exception_state`, the fields `fsr`, `far`
and `exception`. -/
structure arm_exception_state where
  fsr : Nat
  far : Nat
  exception : Nat

/-- Modelled from the spec: word index of `sp` when a `thread_state_t` buffer is read
as a `struct arm_thread_state` (`r[i]` is word `i`; the fields follow in the order
the data model lists them). -/
def TS_sp : Nat := 13
/-- Word index of `lr` in a buffer read as `struct arm_thread_state`. -/
def TS_lr : Nat := 14
/-- Word index of `pc` in a buffer read as `struct arm_thread_state`. -/
def TS_pc : Nat := 15
/-- Word index of `cpsr` in a buffer read as `struct arm_thread_state`. -/
def TS_cpsr : Nat := 16
/-- Modelled from the spec: word index of `fpscr` in a buffer read as
`struct arm_vfp_state` (`r[i]` is word `i`). -/
def VFP_fpscr : Nat := 64
/-- Modelled from the spec: word indices of the three fields of a buffer read as
`struct arm_exception_state`, in the order the data model lists them. -/
def ES_fsr : Nat := 0
/-- Word index of `far` in a buffer read as `struct arm_exception_state`. -/
def ES_far : Nat := 1
/-- Word index of `exception` in a buffer read as `struct arm_exception_state`. -/
def ES_exception : Nat := 2

/-- The assignment `state->r[i] = v` on a general-purpose state. -/
def arm_thread_state.set_r (s : arm_thread_state) (i : Fin 13) (v : Nat) : arm_thread_state :=
  { s with r := Function.update s.r i v }

/-- The assignment `state->r[i] = v` on a floating-point state. -/
def arm_vfp_state.set_r (s : arm_vfp_state) (i : Fin 64) (v : Nat) : arm_vfp_state :=
  { s with r := Function.update s.r i v }

/-- The result of `bzero` on a general-purpose state. -/
def arm_thread_state.zero : arm_thread_state :=
  { r := fun _ => 0, sp := 0, lr := 0, pc := 0, cpsr := 0 }

/-- What `thread->machine.uss` points at: the thread's own `user_regs`, or a
saved-state area elsewhere (identified by its address).  The reference always
designates live storage (data-model invariant 1), so there is no null value and
`assert(iss)` in `thread_set_parent` cannot fail. -/
inductive saved_state_ptr
  | user_regs
  | elsewhere (addr : Nat)
  deriving DecidableEq, Repr

/-- The part `thread->machine` of a thread. -/
structure machine_thread where
  user_regs : arm_thread_state
  uss : saved_state_ptr
  vfp_regs : arm_vfp_state
  es : arm_exception_state

/-- A thread as seen through a `thread_t`: its machine-dependent part together with
the saved-state areas outside the thread that `machine.uss` may designate. -/
structure thread_t where
  machine : machine_thread
  saved : Nat → arm_thread_state

/-- Read through a saved-state pointer. -/
def thread_t.load (t : thread_t) : saved_state_ptr → arm_thread_state
  | .user_regs => t.machine.user_regs
  | .elsewhere a => t.saved a

/-- Write through a saved-state pointer. -/
def thread_t.store (t : thread_t) (p : saved_state_ptr) (s : arm_thread_state) : thread_t :=
  match p with
  | .user_regs => { t with machine := { t.machine with user_regs := s } }
  | .elsewhere a => { t with saved := Function.update t.saved a s }

/-- The source's `struct arm_act_context`; both members are handed to the state
routines as `thread_state_t`, so they are kept as word arrays. -/
structure arm_act_context where
  ss : thread_state_t
  fs : thread_state_t

/-! ## The routines of `status.c` -/

/-- The function `thread_userstack` of the source (lines 69-91).  The result is the status
and the final value of `*user_stack`; `thread` and `customstack` are neither read
nor written. -/
def thread_userstack (c : thread_status_consts) (flavor : Int) (tstate : thread_state_t)
    (count : Nat) (user_stack : Nat) : kern_return_t × Nat :=
  let user_stack := if user_stack = 0 then USRSTACK else user_stack
  if flavor = c.ARM_THREAD_STATE then
    if count < ARM_THREAD_STATE_COUNT then
      (KERN_INVALID_ARGUMENT, user_stack)
    else
      let user_stack := if tstate TS_sp ≠ 0 then tstate TS_sp else USRSTACK
      (KERN_SUCCESS, user_stack)
  else
    (KERN_INVALID_ARGUMENT, user_stack)

/-- The function `thread_entrypoint` of the source (lines 116-140).  The result is the
status and the final value of `*entry_point`. -/
def thread_entrypoint (c : thread_status_consts) (flavor : Int) (tstate : thread_state_t)
    (count : Nat) (entry_point : Nat) : kern_return_t × Nat :=
  let entry_point := if entry_point = 0 then c.VM_MIN_ADDRESS else entry_point
  if flavor = c.ARM_THREAD_STATE then
    if count < ARM_THREAD_STATE_COUNT then
      (KERN_INVALID_ARGUMENT, entry_point)
    else
      let entry_point := if tstate TS_pc ≠ 0 then tstate TS_pc else c.VM_MIN_ADDRESS
      (KERN_SUCCESS, entry_point)
  else
    (KERN_INVALID_ARGUMENT, entry_point)

/-- The function `thread_userstackdefault` of the source (lines 147-153). -/
def thread_userstackdefault : kern_return_t × Nat :=
  (KERN_SUCCESS, USRSTACK)

/-- Everything `machine_thread_get_state` can touch, after the call: the status, the
thread, the caller's buffer and `*count`. -/
structure get_state_result where
  ret : kern_return_t
  thr_act : thread_t
  tstate : thread_state_t
  count : Nat

/-- The loop `for (i = 0; i < 64; i++) state->r[i] = saved_state->r[i];` of the
floating-point case of `machine_thread_get_state`, writing into the buffer. -/
def vfp_copy_out (saved_state : arm_vfp_state) (tstate : thread_state_t) : thread_state_t :=
  (List.finRange 64).foldl (fun state i => Function.update state i.val (saved_state.r i)) tstate

/-- The loop `for (i = 0; i < 64; i++) state->r[i] = new_state->r[i];` of the
floating-point case of `machine_thread_set_state`, reading from the buffer. -/
def vfp_copy_in (new_state : thread_state_t) (state : arm_vfp_state) : arm_vfp_state :=
  (List.finRange 64).foldl (fun state i => state.set_r i (new_state i.val)) state

/-- The function `machine_thread_get_state` of the source (lines 160-275). -/
def machine_thread_get_state (c : thread_status_consts) (thr_act : thread_t) (flavor : Int)
    (tstate : thread_state_t) (count : Nat) : get_state_result :=
  if flavor = c.THREAD_STATE_FLAVOR_LIST then
    if count < 3 then
      ⟨KERN_INVALID_ARGUMENT, thr_act, tstate, count⟩
    else
      let tstate := Function.update tstate 0 c.ARM_THREAD_STATE
      let tstate := Function.update tstate 1 c.ARM_VFP_STATE
      let tstate := Function.update tstate 2 c.ARM_EXCEPTION_STATE
      ⟨KERN_SUCCESS, thr_act, tstate, 3⟩
  else if flavor = c.THREAD_STATE_FLAVOR_LIST_NEW then
    if count < 4 then
      ⟨KERN_INVALID_ARGUMENT, thr_act, tstate, count⟩
    else
      let tstate := Function.update tstate 0 c.ARM_THREAD_STATE
      let tstate := Function.update tstate 1 c.ARM_VFP_STATE
      let tstate := Function.update tstate 2 c.ARM_EXCEPTION_STATE
      let tstate := Function.update tstate 3 c.ARM_DEBUG_STATE
      ⟨KERN_SUCCESS, thr_act, tstate, 4⟩
  else if flavor = c.ARM_THREAD_STATE then
    if count < ARM_THREAD_STATE_COUNT then
      ⟨KERN_INVALID_ARGUMENT, thr_act, tstate, count⟩
    else
      let saved_state := thr_act.load thr_act.machine.uss
      let state := tstate
      let state := Function.update state 0 (saved_state.r 0)
      let state := Function.update state 1 (saved_state.r 1)
      let state := Function.update state 2 (saved_state.r 2)
      let state := Function.update state 3 (saved_state.r 3)
      let state := Function.update state 4 (saved_state.r 4)
      let state := Function.update state 5 (saved_state.r 5)
      let state := Function.update state 6 (saved_state.r 6)
      let state := Function.update state 7 (saved_state.r 7)
      let state := Function.update state 8 (saved_state.r 8)
      let state := Function.update state 9 (saved_state.r 9)
      let state := Function.update state 10 (saved_state.r 10)
      let state := Function.update state 11 (saved_state.r 11)
      let state := Function.update state 12 (saved_state.r 12)
      let state := Function.update state TS_sp saved_state.sp
      let state := Function.update state TS_lr saved_state.lr
      let state := Function.update state TS_pc saved_state.pc
      let state := Function.update state TS_cpsr saved_state.cpsr
      ⟨KERN_SUCCESS, thr_act, state, ARM_THREAD_STATE_COUNT⟩
  else if flavor = c.ARM_VFP_STATE then
    if count < ARM_VFP_STATE_COUNT then
      ⟨KERN_INVALID_ARGUMENT, thr_act, tstate, count⟩
    else
      let saved_state := thr_act.machine.vfp_regs
      let state := vfp_copy_out saved_state tstate
      let state := Function.update state VFP_fpscr saved_state.fpscr
      ⟨KERN_SUCCESS, thr_act, state, ARM_VFP_STATE_COUNT⟩
  else if flavor = c.ARM_EXCEPTION_STATE then
    if count < ARM_EXCEPTION_STATE_COUNT then
      ⟨KERN_INVALID_ARGUMENT, thr_act, tstate, count⟩
    else
      let saved_state := thr_act.machine.es
      let state := tstate
      let state := Function.update state ES_fsr saved_state.fsr
      let state := Function.update state ES_far saved_state.far
      let state := Function.update state ES_exception saved_state.exception
      ⟨KERN_SUCCESS, thr_act, state, ARM_EXCEPTION_STATE_COUNT⟩
  else if flavor = c.ARM_DEBUG_STATE then
    ⟨KERN_SUCCESS, thr_act, tstate, count⟩
  else
    ⟨KERN_INVALID_ARGUMENT, thr_act, tstate, count⟩

/-- The first `switch` of `machine_thread_set_state` (lines 289-316): validate the
count before anything else.  `none` means the check passed. -/
def set_state_validate (c : thread_status_consts) (flavor : Int) (count : Nat) :
    Option kern_return_t :=
  if flavor = c.ARM_THREAD_STATE then
    if count < ARM_THREAD_STATE_COUNT then some KERN_INVALID_ARGUMENT else none
  else if flavor = c.ARM_DEBUG_STATE then
    if count < c.ARM_DEBUG_STATE_COUNT then some KERN_INVALID_ARGUMENT else none
  else if flavor = c.ARM_VFP_STATE then
    if count < ARM_VFP_STATE_COUNT then some KERN_INVALID_ARGUMENT else none
  else if flavor = c.ARM_EXCEPTION_STATE then
    if count < ARM_EXCEPTION_STATE_COUNT then some KERN_INVALID_ARGUMENT else none
  else
    some KERN_INVALID_ARGUMENT

/-- The function `machine_thread_set_state` of the source (lines 282-392).  The result is
the status and the thread after the call.  `thread` and `tstate` are valid
pointers here, so the two assertions of lines 321-322 hold. -/
def machine_thread_set_state (c : thread_status_consts) (thread : thread_t) (flavor : Int)
    (tstate : thread_state_t) (count : Nat) : kern_return_t × thread_t :=
  match set_state_validate c flavor count with
  | some err => (err, thread)
  | none =>
    if flavor = c.ARM_THREAD_STATE then
      let new_state := tstate
      let state := thread.machine.user_regs
      let state := state.set_r 0 (new_state 0)
      let state := state.set_r 1 (new_state 1)
      let state := state.set_r 2 (new_state 2)
      let state := state.set_r 3 (new_state 3)
      let state := state.set_r 4 (new_state 4)
      let state := state.set_r 5 (new_state 5)
      let state := state.set_r 6 (new_state 6)
      let state := state.set_r 7 (new_state 7)
      let state := state.set_r 8 (new_state 8)
      let state := state.set_r 9 (new_state 9)
      let state := state.set_r 10 (new_state 10)
      let state := state.set_r 11 (new_state 11)
      let state := state.set_r 12 (new_state 12)
      let state := { state with sp := new_state TS_sp }
      let state := { state with lr := new_state TS_lr }
      let state := { state with pc := new_state TS_pc }
      let state := { state with cpsr := sanitise_cpsr (new_state TS_cpsr) }
      (KERN_SUCCESS, { thread with machine := { thread.machine with user_regs := state } })
    else if flavor = c.ARM_VFP_STATE then
      let new_state := tstate
      let state := thread.machine.vfp_regs
      let state := vfp_copy_in new_state state
      let state := { state with fpscr := new_state VFP_fpscr }
      (KERN_SUCCESS, { thread with machine := { thread.machine with vfp_regs := state } })
    else if flavor = c.ARM_EXCEPTION_STATE then
      let new_state := tstate
      let state := thread.machine.es
      let state := { state with fsr := new_state ES_fsr }
      let state := { state with far := new_state ES_far }
      let state := { state with exception := new_state ES_exception }
      (KERN_SUCCESS, { thread with machine := { thread.machine with es := state } })
    else if flavor = c.ARM_DEBUG_STATE then
      (KERN_SUCCESS, thread)
    else
      (KERN_INVALID_ARGUMENT, thread)

/-- The function `thread_setuserstack` of the source (lines 399-405);
`CAST_DOWN(unsigned int, user_stack)` keeps the low 32 bits. -/
def thread_setuserstack (thread : thread_t) (user_stack : Nat) : thread_t :=
  { thread with machine := { thread.machine with
      user_regs := { thread.machine.user_regs with sp := user_stack % 2 ^ 32 } } }

/-- The function `thread_adjuserstack` of the source (lines 412-418): `sp += adj` in 32-bit
unsigned arithmetic; the result is the thread and the returned `uint64_t`. -/
def thread_adjuserstack (thread : thread_t) (adj : Int) : thread_t × Nat :=
  let sp := int_to_u32 ((thread.machine.user_regs.sp : Int) + adj)
  let thread := { thread with machine := { thread.machine with
      user_regs := { thread.machine.user_regs with sp := sp } } }
  (thread, thread.machine.user_regs.sp)

/-- The function `thread_setentrypoint` of the source (lines 425-431). -/
def thread_setentrypoint (thread : thread_t) (entry : Nat) : thread_t :=
  { thread with machine := { thread.machine with
      user_regs := { thread.machine.user_regs with pc := entry } } }

/-- The function `thread_set_parent` of the source (lines 438-448): two writes through
`parent->machine.uss`. -/
def thread_set_parent (parent : thread_t) (pid : Int) : thread_t :=
  let iss := parent.machine.uss
  let parent := parent.store iss ((parent.load iss).set_r 0 (int_to_u32 pid))
  let parent := parent.store iss ((parent.load iss).set_r 1 0)
  parent

/-- The function `act_thread_csave` of the source (lines 460-486).  `thr_act` is
`current_thread()`; `kalloc` is what the allocator returns, `none` for `NULL` and
otherwise a block with arbitrary contents.  The result is the thread and the
returned pointer (`none` for `NULL`).  Both reads ask for `ARM_THREAD_STATE`, as
the source does. -/
def act_thread_csave (c : thread_status_consts) (thr_act : thread_t)
    (kalloc : Option arm_act_context) : thread_t × Option arm_act_context :=
  match kalloc with
  | none => (thr_act, none)
  | some ic =>
    let val := ARM_THREAD_STATE_COUNT
    let g := machine_thread_get_state c thr_act c.ARM_THREAD_STATE ic.ss val
    let thr_act := g.thr_act
    let ic := { ic with ss := g.tstate }
    if g.ret ≠ KERN_SUCCESS then
      (thr_act, none)
    else
      let val := ARM_VFP_STATE_COUNT
      let g := machine_thread_get_state c thr_act c.ARM_THREAD_STATE ic.fs val
      let thr_act := g.thr_act
      let ic := { ic with fs := g.tstate }
      if g.ret ≠ KERN_SUCCESS then
        (thr_act, none)
      else
        (thr_act, some ic)

/-- The function `act_thread_catt` of the source (lines 493-511).  `thr_act` is
`current_thread()`; `ctx` is `none` for `NULL`. -/
def act_thread_catt (c : thread_status_consts) (thr_act : thread_t)
    (ctx : Option arm_act_context) : thread_t :=
  match ctx with
  | none => thr_act
  | some ic =>
    let s := machine_thread_set_state c thr_act c.ARM_THREAD_STATE ic.ss ARM_THREAD_STATE_COUNT
    if s.1 = KERN_SUCCESS then
      (machine_thread_set_state c s.2 c.ARM_VFP_STATE ic.fs ARM_VFP_STATE_COUNT).2
    else
      s.2

/-- The function `thread_set_child` of the source (lines 519-526).  `none` is the failure
of the assertion `child->machine.uss == &child->machine.user_regs`. -/
def thread_set_child (child : thread_t) (pid : Int) : Option thread_t :=
  if child.machine.uss = saved_state_ptr.user_regs then
    let child := child.store child.machine.uss
      ((child.load child.machine.uss).set_r 0 (int_to_u32 pid))
    let child := child.store child.machine.uss
      ((child.load child.machine.uss).set_r 1 1)
    some child
  else
    none

/-- The function `thread_set_wq_state32` of the source (lines 533-569).  `curth_is_thread`
says whether `current_thread() == thread`; when it does not, the source brackets
the writes with `splsched`/`thread_lock` and `thread_unlock`/`splx`, which touch
no register state.  `none` is the failure of the assertion of line 541. -/
def thread_set_wq_state32 (thread : thread_t) (tstate : thread_state_t)
    (curth_is_thread : Bool) : Option thread_t :=
  let saved_state := thread.machine.uss
  if thread.machine.uss = saved_state_ptr.user_regs then
    let state := tstate
    -- `if (curth != thread) { s = splsched(); thread_lock(thread); }`
    let thread := if curth_is_thread then thread else thread
    let thread := thread.store saved_state arm_thread_state.zero
    let thread := thread.store saved_state ((thread.load saved_state).set_r 0 (state 0))
    let thread := thread.store saved_state ((thread.load saved_state).set_r 1 (state 1))
    let thread := thread.store saved_state ((thread.load saved_state).set_r 2 (state 2))
    let thread := thread.store saved_state ((thread.load saved_state).set_r 3 (state 3))
    let thread := thread.store saved_state ((thread.load saved_state).set_r 4 (state 4))
    let thread := thread.store saved_state ((thread.load saved_state).set_r 5 (state 5))
    let thread := thread.store saved_state { thread.load saved_state with sp := state TS_sp }
    let thread := thread.store saved_state { thread.load saved_state with lr := state TS_lr }
    let thread := thread.store saved_state { thread.load saved_state with pc := state TS_pc }
    let thread := thread.store saved_state
      { thread.load saved_state with cpsr := sanitise_cpsr (state TS_cpsr) }
    -- `if (curth != thread) { thread_unlock(thread); splx(s); }`
    let thread := if curth_is_thread then thread else thread
    some thread
  else
    none

/-! ## Concrete inputs -/

/-- A floating-point state with every word equal to `v`. -/
def arm_vfp_state.const (v : Nat) : arm_vfp_state := { r := fun _ => v, fpscr := v }

/-- A thread whose reference designates its own storage, with `r0 = 7`, `r1 = 99`,
all other general-purpose words zero and all floating-point words one. -/
def own_thread : thread_t :=
  { machine :=
      { user_regs := (arm_thread_state.zero.set_r 0 7).set_r 1 99
        uss := saved_state_ptr.user_regs
        vfp_regs := arm_vfp_state.const 1
        es := { fsr := 0, far := 0, exception := 0 } }
    saved := fun _ => arm_thread_state.zero }

/-- The same thread with its reference redirected to the saved-state area at
address `0`, which holds zeros. -/
def redirected_thread : thread_t :=
  { own_thread with machine := { own_thread.machine with uss := saved_state_ptr.elsewhere 0 } }

/-- A caller buffer holding the word `i + 1` at index `i`. -/
def succ_buffer : thread_state_t := fun i => i + 1

/-- A caller buffer of zeros. -/
def zero_buffer : thread_state_t := fun _ => 0

/-- A thread whose general-purpose state was established by a Set of
`ARM_THREAD_STATE` from `succ_buffer` (so `r[i] = i + 1` and the control word is
sanitised); its floating-point words are all one. -/
def established_thread : thread_t :=
  (machine_thread_set_state mach_consts own_thread mach_consts.ARM_THREAD_STATE succ_buffer
    ARM_THREAD_STATE_COUNT).2

/-- A freshly allocated `arm_act_context` whose words happen to be zero. -/
def fresh_block : arm_act_context := { ss := zero_buffer, fs := zero_buffer }

/-- The control word of the thread's own general-purpose storage is a fixed point
of the sanitiser, that is, it has passed through `sanitise_cpsr`. -/
def cpsr_sanitised (t : thread_t) : Prop :=
  t.machine.user_regs.cpsr = sanitise_cpsr t.machine.user_regs.cpsr

/-- A thread like `own_thread` whose control word is the privileged, interrupts-off
value `0xD3` (not a fixed point of the sanitiser) and whose stack pointer is
`0xFFFFFFFC`. -/
def raw_thread : thread_t :=
  { own_thread with machine := { own_thread.machine with
      user_regs := { own_thread.machine.user_regs with cpsr := 0xD3, sp := 0xFFFFFFFC } } }

/-! ## The sanitiser -/

/-- The chain of masks of `sanitise_cpsr` collapses to one mask and one set bit. -/
theorem sanitise_cpsr_eq (x : Nat) : sanitise_cpsr x = (x &&& 0xFFFFFD20) ||| 0x10 := by
  have h9 : not32 (1 <<< 9) = 0xFFFFFDFF := by decide
  have h7 : not32 (1 <<< 7) = 0xFFFFFF7F := by decide
  have h6 : not32 (1 <<< 6) = 0xFFFFFFBF := by decide
  have hm : (0xFFFFFDFF &&& (0xFFFFFF7F &&& (0xFFFFFFBF &&& 0xFFFFFFE0)) : Nat) = 0xFFFFFD20 := by
    decide
  simp only [sanitise_cpsr, h9, h7, h6, Nat.land_assoc, hm]

/-- Bits of the combined keep-mask: bit 5, bit 8 and bits 10..31. -/
theorem keep_mask_testBit : ∀ i, i < 32 →
    (0xFFFFFD20 : Nat).testBit i = decide (i = 5 ∨ i = 8 ∨ 10 ≤ i) := by decide

/-- Bits of the user-mode encoding: bit 4 only. -/
theorem user_mode_testBit : ∀ i, i < 32 → (0x10 : Nat).testBit i = decide (i = 4) := by decide

/-- The result of `sanitise_cpsr` is a 32-bit word. -/
theorem sanitise_cpsr_lt (x : Nat) : sanitise_cpsr x < 2 ^ 32 := by
  rw [sanitise_cpsr_eq]
  exact Nat.or_lt_two_pow (lt_of_le_of_lt Nat.and_le_right (by norm_num)) (by norm_num)

/-- Each of the low 32 bits of `sanitise_cpsr x` in terms of the same bit of `x`. -/
theorem sanitise_cpsr_testBit_lt (x i : Nat) (h : i < 32) :
    (sanitise_cpsr x).testBit i
      = ((x.testBit i && decide (i = 5 ∨ i = 8 ∨ 10 ≤ i)) || decide (i = 4)) := by
  rw [sanitise_cpsr_eq, Nat.testBit_or, Nat.testBit_and, keep_mask_testBit i h,
    user_mode_testBit i h]

/-- Bits 32 and up of a 32-bit word are clear. -/
theorem testBit_high_of_lt (y i : Nat) (hy : y < 2 ^ 32) (hi : ¬ i < 32) :
    y.testBit i = false :=
  Nat.testBit_lt_two_pow
    (lt_of_lt_of_le hy (Nat.pow_le_pow_right (by norm_num) (not_lt.mp hi)))

/-- The mode field of a sanitised word is `0x10`. -/
theorem sanitise_cpsr_mode (x : Nat) : sanitise_cpsr x % 32 = 0x10 := by
  apply Nat.eq_of_testBit_eq
  intro i
  have h32 : (32 : Nat) = 2 ^ 5 := by norm_num
  rw [h32, Nat.testBit_mod_two_pow]
  by_cases h : i < 5
  · rw [sanitise_cpsr_testBit_lt x i (by omega), user_mode_testBit i (by omega)]
    have h5 : ¬ (i = 5 ∨ i = 8 ∨ 10 ≤ i) := by omega
    simp [h, h5]
  · have h16 : (0x10 : Nat).testBit i = false :=
      Nat.testBit_lt_two_pow
        (lt_of_lt_of_le (by norm_num) (Nat.pow_le_pow_right (by norm_num) (not_lt.mp h)))
    simp [h, h16]

/-- The bits outside the mode field and the three cleared bits pass through. -/
theorem sanitise_cpsr_keeps (x i : Nat) (hx : x < 2 ^ 32) (hi : i = 5 ∨ i = 8 ∨ 10 ≤ i) :
    (sanitise_cpsr x).testBit i = x.testBit i := by
  by_cases h : i < 32
  · rw [sanitise_cpsr_testBit_lt x i h]
    have h4 : i ≠ 4 := by omega
    simp [hi, h4]
  · rw [testBit_high_of_lt _ i (sanitise_cpsr_lt x) h, testBit_high_of_lt x i hx h]

/-- Bits 6, 7 and 9 of a sanitised word are clear. -/
theorem sanitise_cpsr_clears (x i : Nat) (hi : i = 6 ∨ i = 7 ∨ i = 9) :
    (sanitise_cpsr x).testBit i = false := by
  rw [sanitise_cpsr_testBit_lt x i (by omega)]
  have h4 : i ≠ 4 := by omega
  have h5 : ¬ (i = 5 ∨ i = 8 ∨ 10 ≤ i) := by omega
  simp [h4, h5]

/-- Sanitising twice is sanitising once. -/
theorem sanitise_cpsr_twice (x : Nat) : sanitise_cpsr (sanitise_cpsr x) = sanitise_cpsr x := by
  apply Nat.eq_of_testBit_eq
  intro i
  by_cases h : i < 32
  · rw [sanitise_cpsr_testBit_lt _ i h, sanitise_cpsr_testBit_lt x i h]
    cases x.testBit i <;> by_cases a : (i = 5 ∨ i = 8 ∨ 10 ≤ i) <;> by_cases b : i = 4 <;>
      simp [a, b]
  · rw [testBit_high_of_lt _ i (sanitise_cpsr_lt _) h, testBit_high_of_lt _ i (sanitise_cpsr_lt x) h]

/-- C1: for every 32-bit word `x`, `sanitise_cpsr x` has bits 9, 7 and 6 clear, its low
five bits equal to `0x10`, agrees with `x` on bit 5, bit 8 and every bit from 10
up, and equals `(x AND 0xFFFFFD20) OR 0x10`. -/
theorem sanitise_cpsr_contract (x : Nat) (hx : x < 2 ^ 32) :
    (sanitise_cpsr x).testBit 9 = false ∧ (sanitise_cpsr x).testBit 7 = false ∧
    (sanitise_cpsr x).testBit 6 = false ∧ sanitise_cpsr x % 32 = 0x10 ∧
    (∀ i, i = 5 ∨ i = 8 ∨ 10 ≤ i → (sanitise_cpsr x).testBit i = x.testBit i) ∧
    sanitise_cpsr x = (x &&& 0xFFFFFD20) ||| 0x10 ∧ sanitise_cpsr x < 2 ^ 32 :=
  ⟨sanitise_cpsr_clears x 9 (by omega), sanitise_cpsr_clears x 7 (by omega),
    sanitise_cpsr_clears x 6 (by omega), sanitise_cpsr_mode x,
    fun i hi => sanitise_cpsr_keeps x i hx hi, sanitise_cpsr_eq x, sanitise_cpsr_lt x⟩

/-- Witness of C1 at the all-ones word: the mode field becomes `0x10` and bit 9 is
cleared. -/
theorem sanitise_cpsr_contract_witness :
    (0xFFFFFFFF : Nat) < 2 ^ 32 ∧ (sanitise_cpsr 0xFFFFFFFF).testBit 9 = false ∧
      sanitise_cpsr 0xFFFFFFFF % 32 = 0x10 :=
  ⟨by norm_num, (sanitise_cpsr_contract 0xFFFFFFFF (by norm_num)).1,
    (sanitise_cpsr_contract 0xFFFFFFFF (by norm_num)).2.2.2.1⟩

/-- C6: `sanitise_cpsr` is idempotent: for every word `x` (in particular every 32-bit
one), sanitising the sanitised word gives the sanitised word. -/
theorem sanitise_cpsr_idempotent (x : Nat) :
    sanitise_cpsr (sanitise_cpsr x) = sanitise_cpsr x :=
  sanitise_cpsr_twice x

/-! ## Flavor labels -/

/-- The six flavor labels are pairwise different. -/
theorem labels_ne (c : thread_status_consts) :
    c.THREAD_STATE_FLAVOR_LIST ≠ c.THREAD_STATE_FLAVOR_LIST_NEW ∧
    c.THREAD_STATE_FLAVOR_LIST ≠ c.ARM_THREAD_STATE ∧
    c.THREAD_STATE_FLAVOR_LIST ≠ c.ARM_VFP_STATE ∧
    c.THREAD_STATE_FLAVOR_LIST ≠ c.ARM_EXCEPTION_STATE ∧
    c.THREAD_STATE_FLAVOR_LIST ≠ c.ARM_DEBUG_STATE ∧
    c.THREAD_STATE_FLAVOR_LIST_NEW ≠ c.ARM_THREAD_STATE ∧
    c.THREAD_STATE_FLAVOR_LIST_NEW ≠ c.ARM_VFP_STATE ∧
    c.THREAD_STATE_FLAVOR_LIST_NEW ≠ c.ARM_EXCEPTION_STATE ∧
    c.THREAD_STATE_FLAVOR_LIST_NEW ≠ c.ARM_DEBUG_STATE ∧
    c.ARM_THREAD_STATE ≠ c.ARM_VFP_STATE ∧
    c.ARM_THREAD_STATE ≠ c.ARM_EXCEPTION_STATE ∧
    c.ARM_THREAD_STATE ≠ c.ARM_DEBUG_STATE ∧
    c.ARM_VFP_STATE ≠ c.ARM_EXCEPTION_STATE ∧
    c.ARM_VFP_STATE ≠ c.ARM_DEBUG_STATE ∧
    c.ARM_EXCEPTION_STATE ≠ c.ARM_DEBUG_STATE := by
  have h := c.labels_nodup
  simp only [List.nodup_cons, List.mem_cons, List.mem_singleton, not_or, List.not_mem_nil,
    not_false_eq_true, List.nodup_nil, and_true] at h
  obtain ⟨⟨a1, a2, a3, a4, a5⟩, ⟨b1, b2, b3, b4⟩, ⟨c1, c2, c3⟩, ⟨d1, d2⟩, e1⟩ := h
  exact ⟨a1, a2, a3, a4, a5, b1, b2, b3, b4, c1, c2, c3, d1, d2, e1⟩

/-- C3: `machine_thread_set_state` returns `KERN_INVALID_ARGUMENT` and leaves the thread as
it was for every flavor outside the four settable ones and for each of the four
with a count below the flavor's required count; for every other flavor and count
it returns `KERN_SUCCESS`. -/
theorem set_state_rejects_without_mutation (c : thread_status_consts) (thread : thread_t)
    (flavor : Int) (tstate : thread_state_t) (count : Nat) :
    (((flavor ≠ c.ARM_THREAD_STATE ∧ flavor ≠ c.ARM_VFP_STATE ∧
          flavor ≠ c.ARM_EXCEPTION_STATE ∧ flavor ≠ c.ARM_DEBUG_STATE) ∨
        (flavor = c.ARM_THREAD_STATE ∧ count < ARM_THREAD_STATE_COUNT) ∨
        (flavor = c.ARM_VFP_STATE ∧ count < ARM_VFP_STATE_COUNT) ∨
        (flavor = c.ARM_EXCEPTION_STATE ∧ count < ARM_EXCEPTION_STATE_COUNT) ∨
        (flavor = c.ARM_DEBUG_STATE ∧ count < c.ARM_DEBUG_STATE_COUNT)) →
      machine_thread_set_state c thread flavor tstate count = (KERN_INVALID_ARGUMENT, thread)) ∧
    (¬ ((flavor ≠ c.ARM_THREAD_STATE ∧ flavor ≠ c.ARM_VFP_STATE ∧
          flavor ≠ c.ARM_EXCEPTION_STATE ∧ flavor ≠ c.ARM_DEBUG_STATE) ∨
        (flavor = c.ARM_THREAD_STATE ∧ count < ARM_THREAD_STATE_COUNT) ∨
        (flavor = c.ARM_VFP_STATE ∧ count < ARM_VFP_STATE_COUNT) ∨
        (flavor = c.ARM_EXCEPTION_STATE ∧ count < ARM_EXCEPTION_STATE_COUNT) ∨
        (flavor = c.ARM_DEBUG_STATE ∧ count < c.ARM_DEBUG_STATE_COUNT)) →
      (machine_thread_set_state c thread flavor tstate count).1 = KERN_SUCCESS) := by
  obtain ⟨-, -, -, -, -, -, -, -, -, c1, c2, c3, d1, d2, e1⟩ := labels_ne c
  constructor
  · rintro (⟨h1, h2, h3, h4⟩ | ⟨rfl, h⟩ | ⟨rfl, h⟩ | ⟨rfl, h⟩ | ⟨rfl, h⟩)
    · simp [machine_thread_set_state, set_state_validate, h1, h2, h3, h4]
    · simp [machine_thread_set_state, set_state_validate, h]
    · simp [machine_thread_set_state, set_state_validate, h, Ne.symm c1, d2]
    · simp [machine_thread_set_state, set_state_validate, h, Ne.symm c2, Ne.symm d1, e1]
    · simp [machine_thread_set_state, set_state_validate, h, Ne.symm c3]
  · intro h
    simp only [not_or, not_and, not_lt] at h
    obtain ⟨h0, h1, h2, h3, h4⟩ := h
    by_cases f1 : flavor = c.ARM_THREAD_STATE
    · have := h1 f1
      simp [machine_thread_set_state, set_state_validate, f1, not_lt.mpr this]
    by_cases f4 : flavor = c.ARM_DEBUG_STATE
    · have := h4 f4
      simp [machine_thread_set_state, set_state_validate, f4, Ne.symm c3, Ne.symm d2,
        Ne.symm e1, not_lt.mpr this]
    by_cases f2 : flavor = c.ARM_VFP_STATE
    · have := h2 f2
      simp [machine_thread_set_state, set_state_validate, f2, Ne.symm c1, d2, not_lt.mpr this]
    by_cases f3 : flavor = c.ARM_EXCEPTION_STATE
    · have := h3 f3
      simp [machine_thread_set_state, set_state_validate, f3, Ne.symm c2, Ne.symm d1, e1,
        not_lt.mpr this]
    · exact absurd (h0 f1 f2 f3) (by simpa using f4)

/-- Witness of C3: an unknown flavor is rejected and the thread is unchanged. -/
theorem set_state_rejects_without_mutation_witness :
    machine_thread_set_state mach_consts own_thread 99 succ_buffer 1000
      = (KERN_INVALID_ARGUMENT, own_thread) :=
  (set_state_rejects_without_mutation mach_consts own_thread 99 succ_buffer 1000).1
    (Or.inl (by decide))

/-! ## Flavor lists and the not-yet-running queries -/

/-- C7: with `THREAD_STATE_FLAVOR_LIST` and a count of at least 3 the call succeeds, writes
the three concrete flavors to words 0..2 and nothing else, and sets the count to 3;
with `THREAD_STATE_FLAVOR_LIST_NEW` and a count of at least 4 it also writes
`ARM_DEBUG_STATE` to word 3 and sets the count to 4; with a smaller count it
returns `KERN_INVALID_ARGUMENT` and changes neither buffer nor count. -/
theorem get_state_flavor_lists (c : thread_status_consts) (thr_act : thread_t)
    (tstate : thread_state_t) (count : Nat) :
    (3 ≤ count →
      (machine_thread_get_state c thr_act c.THREAD_STATE_FLAVOR_LIST tstate count).ret
          = KERN_SUCCESS ∧
      (machine_thread_get_state c thr_act c.THREAD_STATE_FLAVOR_LIST tstate count).count = 3 ∧
      (machine_thread_get_state c thr_act c.THREAD_STATE_FLAVOR_LIST tstate count).tstate 0
          = c.ARM_THREAD_STATE ∧
      (machine_thread_get_state c thr_act c.THREAD_STATE_FLAVOR_LIST tstate count).tstate 1
          = c.ARM_VFP_STATE ∧
      (machine_thread_get_state c thr_act c.THREAD_STATE_FLAVOR_LIST tstate count).tstate 2
          = c.ARM_EXCEPTION_STATE ∧
      ∀ j, 3 ≤ j →
        (machine_thread_get_state c thr_act c.THREAD_STATE_FLAVOR_LIST tstate count).tstate j
          = tstate j) ∧
    (count < 3 →
      machine_thread_get_state c thr_act c.THREAD_STATE_FLAVOR_LIST tstate count
        = ⟨KERN_INVALID_ARGUMENT, thr_act, tstate, count⟩) ∧
    (4 ≤ count →
      (machine_thread_get_state c thr_act c.THREAD_STATE_FLAVOR_LIST_NEW tstate count).ret
          = KERN_SUCCESS ∧
      (machine_thread_get_state c thr_act c.THREAD_STATE_FLAVOR_LIST_NEW tstate count).count
          = 4 ∧
      (machine_thread_get_state c thr_act c.THREAD_STATE_FLAVOR_LIST_NEW tstate count).tstate 0
          = c.ARM_THREAD_STATE ∧
      (machine_thread_get_state c thr_act c.THREAD_STATE_FLAVOR_LIST_NEW tstate count).tstate 1
          = c.ARM_VFP_STATE ∧
      (machine_thread_get_state c thr_act c.THREAD_STATE_FLAVOR_LIST_NEW tstate count).tstate 2
          = c.ARM_EXCEPTION_STATE ∧
      (machine_thread_get_state c thr_act c.THREAD_STATE_FLAVOR_LIST_NEW tstate count).tstate 3
          = c.ARM_DEBUG_STATE ∧
      ∀ j, 4 ≤ j →
        (machine_thread_get_state c thr_act c.THREAD_STATE_FLAVOR_LIST_NEW tstate count).tstate j
          = tstate j) ∧
    (count < 4 →
      machine_thread_get_state c thr_act c.THREAD_STATE_FLAVOR_LIST_NEW tstate count
        = ⟨KERN_INVALID_ARGUMENT, thr_act, tstate, count⟩) := by
  obtain ⟨a1, -⟩ := labels_ne c
  refine ⟨fun h => ?_, fun h => ?_, fun h => ?_, fun h => ?_⟩
  · have hc : ¬ count < 3 := not_lt.mpr h
    simp only [machine_thread_get_state, if_true, hc, if_false]
    refine ⟨trivial, trivial, ?_, ?_, ?_, ?_⟩
    · simp [Function.update]
    · simp [Function.update]
    · simp [Function.update]
    · intro j hj
      have h0 : j ≠ 0 := by omega
      have h1 : j ≠ 1 := by omega
      have h2 : j ≠ 2 := by omega
      simp [Function.update, h0, h1, h2]
  · simp [machine_thread_get_state, h]
  · have hc : ¬ count < 4 := not_lt.mpr h
    have hne : ¬ ((c.THREAD_STATE_FLAVOR_LIST_NEW : Int) = (c.THREAD_STATE_FLAVOR_LIST : Int)) := by
      simpa using Ne.symm a1
    simp only [machine_thread_get_state, if_true, hc, if_false, hne]
    refine ⟨trivial, trivial, ?_, ?_, ?_, ?_, ?_⟩
    · simp [Function.update]
    · simp [Function.update]
    · simp [Function.update]
    · simp [Function.update]
    · intro j hj
      have h0 : j ≠ 0 := by omega
      have h1 : j ≠ 1 := by omega
      have h2 : j ≠ 2 := by omega
      have h3 : j ≠ 3 := by omega
      simp [Function.update, h0, h1, h2, h3]
  · simp [machine_thread_get_state, h, Ne.symm a1]

/-- Witness of C7 with capacity 3 (basic list accepted) and capacity 2 (rejected). -/
theorem get_state_flavor_lists_witness :
    (machine_thread_get_state mach_consts own_thread
        mach_consts.THREAD_STATE_FLAVOR_LIST zero_buffer 3).count = 3 ∧
    (machine_thread_get_state mach_consts own_thread
        mach_consts.THREAD_STATE_FLAVOR_LIST zero_buffer 3).tstate 1 = mach_consts.ARM_VFP_STATE ∧
    (machine_thread_get_state mach_consts own_thread
        mach_consts.THREAD_STATE_FLAVOR_LIST zero_buffer 2).ret = KERN_INVALID_ARGUMENT :=
  ⟨((get_state_flavor_lists mach_consts own_thread zero_buffer 3).1 (by decide)).2.1,
    ((get_state_flavor_lists mach_consts own_thread zero_buffer 3).1 (by decide)).2.2.2.1,
    by rw [(get_state_flavor_lists mach_consts own_thread zero_buffer 2).2.1 (by decide)]⟩

/-- C8: with flavor `ARM_THREAD_STATE` and a count of at least `ARM_THREAD_STATE_COUNT`,
whatever the output held before, `thread_userstack` succeeds and outputs the
buffer's `sp`, or `USRSTACK` when `sp` is zero, and `thread_entrypoint` succeeds
and outputs the buffer's `pc`, or `VM_MIN_ADDRESS` when `pc` is zero. -/
theorem userstack_entrypoint_default (c : thread_status_consts) (tstate : thread_state_t)
    (count prior : Nat) (hcount : ARM_THREAD_STATE_COUNT ≤ count) :
    thread_userstack c c.ARM_THREAD_STATE tstate count prior
      = (KERN_SUCCESS, if tstate TS_sp = 0 then USRSTACK else tstate TS_sp) ∧
    thread_entrypoint c c.ARM_THREAD_STATE tstate count prior
      = (KERN_SUCCESS, if tstate TS_pc = 0 then c.VM_MIN_ADDRESS else tstate TS_pc) ∧
    USRSTACK = 0x2FE00000 := by
  have hc : ¬ count < ARM_THREAD_STATE_COUNT := not_lt.mpr hcount
  refine ⟨?_, ?_, rfl⟩
  · by_cases h : tstate TS_sp = 0 <;> simp [thread_userstack, hc, h]
  · by_cases h : tstate TS_pc = 0 <;> simp [thread_entrypoint, hc, h]

/-- Witness of C8: a zero buffer gives the defaults, a buffer with `sp = 14` and
`pc = 16` gives those values. -/
theorem userstack_entrypoint_default_witness :
    thread_userstack mach_consts mach_consts.ARM_THREAD_STATE zero_buffer 17 5
      = (KERN_SUCCESS, 0x2FE00000) ∧
    thread_userstack mach_consts mach_consts.ARM_THREAD_STATE succ_buffer 17 5
      = (KERN_SUCCESS, 14) ∧
    thread_entrypoint mach_consts mach_consts.ARM_THREAD_STATE succ_buffer 17 5
      = (KERN_SUCCESS, 16) :=
  ⟨(userstack_entrypoint_default mach_consts zero_buffer 17 5 (by decide)).1,
    (userstack_entrypoint_default mach_consts succ_buffer 17 5 (by decide)).1,
    (userstack_entrypoint_default mach_consts succ_buffer 17 5 (by decide)).2.1⟩

/-! ## Fork linkage -/

/-- An `int` in the non-negative range is stored in a 32-bit register as itself. -/
theorem int_to_u32_of_nonneg (v : Int) (h0 : 0 ≤ v) (h1 : v < 2 ^ 31) :
    (int_to_u32 v : Int) = v := by
  unfold int_to_u32
  rw [Int.toNat_of_nonneg (Int.emod_nonneg _ (by norm_num))]
  exact Int.emod_eq_of_lt h0 (lt_trans h1 (by norm_num))

/-- A general register with index 2 or more is neither `r[0]` nor `r[1]`. -/
theorem fin13_ne_of_two_le (i : Fin 13) (h : 2 ≤ i.val) : i ≠ 0 ∧ i ≠ 1 := by
  constructor <;> intro e <;> rw [e] at h <;> exact absurd h (by decide)

/-- C9: `thread_set_parent parent pid` sets `r[0]` to `pid` (as a 32-bit value, so `pid`
itself when `pid` is non-negative) and `r[1]` to 0 in the storage that
`parent->machine.uss` designates, and leaves `r[2..12]`, `sp`, `lr`, `pc` and
`cpsr` of that storage, the floating-point state, the exception state and the
reference itself unchanged. -/
theorem set_parent_effect (parent : thread_t) (pid : Int) :
    ((thread_set_parent parent pid).load parent.machine.uss).r 0 = int_to_u32 pid ∧
    (0 ≤ pid → pid < 2 ^ 31 →
      (((thread_set_parent parent pid).load parent.machine.uss).r 0 : Int) = pid) ∧
    ((thread_set_parent parent pid).load parent.machine.uss).r 1 = 0 ∧
    (∀ i : Fin 13, 2 ≤ i.val →
      ((thread_set_parent parent pid).load parent.machine.uss).r i
        = (parent.load parent.machine.uss).r i) ∧
    ((thread_set_parent parent pid).load parent.machine.uss).sp
      = (parent.load parent.machine.uss).sp ∧
    ((thread_set_parent parent pid).load parent.machine.uss).lr
      = (parent.load parent.machine.uss).lr ∧
    ((thread_set_parent parent pid).load parent.machine.uss).pc
      = (parent.load parent.machine.uss).pc ∧
    ((thread_set_parent parent pid).load parent.machine.uss).cpsr
      = (parent.load parent.machine.uss).cpsr ∧
    (thread_set_parent parent pid).machine.vfp_regs = parent.machine.vfp_regs ∧
    (thread_set_parent parent pid).machine.es = parent.machine.es ∧
    (thread_set_parent parent pid).machine.uss = parent.machine.uss := by
  obtain ⟨⟨ur, uss, vfp, es⟩, saved⟩ := parent
  have hr0 : ((thread_set_parent ⟨⟨ur, uss, vfp, es⟩, saved⟩ pid).load uss).r 0
      = int_to_u32 pid := by
    cases uss <;>
      simp [thread_set_parent, thread_t.store, thread_t.load, arm_thread_state.set_r]
  refine ⟨hr0, fun h0 h1 => ?_, ?_, ?_, ?_, ?_, ?_, ?_, ?_, ?_, ?_⟩
  · simp only [] at hr0 ⊢
    rw [hr0]
    exact int_to_u32_of_nonneg pid h0 h1
  · cases uss <;>
      simp [thread_set_parent, thread_t.store, thread_t.load, arm_thread_state.set_r]
  · intro i hi
    obtain ⟨n0, n1⟩ := fin13_ne_of_two_le i hi
    cases uss <;>
      simp [thread_set_parent, thread_t.store, thread_t.load, arm_thread_state.set_r, n0, n1]
  all_goals
    cases uss <;>
      simp [thread_set_parent, thread_t.store, thread_t.load, arm_thread_state.set_r]

/-- Witness of C9, the fork scenario: a parent with `r0 = 7` and `r1 = 99` and child
id 42 ends with `r0 = 42` and `r1 = 0`. -/
theorem set_parent_effect_witness :
    (own_thread.load own_thread.machine.uss).r 0 = 7 ∧
    (own_thread.load own_thread.machine.uss).r 1 = 99 ∧
    (((thread_set_parent own_thread 42).load own_thread.machine.uss).r 0 : Int) = 42 ∧
    ((thread_set_parent own_thread 42).load own_thread.machine.uss).r 1 = 0 :=
  ⟨by decide, by decide,
    (set_parent_effect own_thread 42).2.1 (by decide) (by decide),
    (set_parent_effect own_thread 42).2.2.1⟩

/-- C10: on a child whose reference designates its own storage the assertion of
`thread_set_child` holds and the call sets `r[0]` to `pid` (as a 32-bit value) and
`r[1]` to 1 in the child's own storage, leaving every other field of the thread
unchanged; on a child whose reference is redirected the assertion fails. -/
theorem set_child_effect (child : thread_t) (pid : Int) :
    (child.machine.uss = saved_state_ptr.user_regs →
      ∃ child' : thread_t, thread_set_child child pid = some child' ∧
        child'.machine.user_regs.r 0 = int_to_u32 pid ∧
        (0 ≤ pid → pid < 2 ^ 31 → (child'.machine.user_regs.r 0 : Int) = pid) ∧
        child'.machine.user_regs.r 1 = 1 ∧
        (∀ i : Fin 13, 2 ≤ i.val →
          child'.machine.user_regs.r i = child.machine.user_regs.r i) ∧
        child'.machine.user_regs.sp = child.machine.user_regs.sp ∧
        child'.machine.user_regs.lr = child.machine.user_regs.lr ∧
        child'.machine.user_regs.pc = child.machine.user_regs.pc ∧
        child'.machine.user_regs.cpsr = child.machine.user_regs.cpsr ∧
        child'.machine.vfp_regs = child.machine.vfp_regs ∧
        child'.machine.es = child.machine.es ∧
        child'.machine.uss = child.machine.uss ∧
        child'.saved = child.saved) ∧
    (child.machine.uss ≠ saved_state_ptr.user_regs → thread_set_child child pid = none) := by
  obtain ⟨⟨ur, uss, vfp, es⟩, saved⟩ := child
  constructor
  · intro h
    simp only [] at h
    subst h
    refine ⟨_, by simp only [thread_set_child, if_true]; rfl, ?_, fun h0 h1 => ?_, ?_, ?_, ?_⟩
    · simp [thread_t.store, thread_t.load, arm_thread_state.set_r]
    · have : (Function.update (Function.update ur.r 0 (int_to_u32 pid)) 1 1) 0
          = int_to_u32 pid := by simp
      simp only [thread_t.store, thread_t.load, arm_thread_state.set_r]
      rw [this]
      exact int_to_u32_of_nonneg pid h0 h1
    · simp [thread_t.store, thread_t.load, arm_thread_state.set_r]
    · intro i hi
      obtain ⟨n0, n1⟩ := fin13_ne_of_two_le i hi
      simp [thread_t.store, thread_t.load, arm_thread_state.set_r, n0, n1]
    · simp [thread_t.store, thread_t.load, arm_thread_state.set_r]
  · intro h
    simp only [] at h
    simp [thread_set_child, h]

/-- Witness of C10: child id 42 on a self-referencing child completes; on a redirected
child the assertion fails. -/
theorem set_child_effect_witness :
    (thread_set_child own_thread 42).isSome = true ∧
    thread_set_child redirected_thread 42 = none :=
  ⟨by
    obtain ⟨child', h, -⟩ := (set_child_effect own_thread 42).1 rfl
    rw [h]; rfl,
   (set_child_effect redirected_thread 42).2 (by decide)⟩

/-! ## The state transfer engine -/

/-- The copy loop of the floating-point Set, over any list of indices: a register is
taken from the buffer when its index is in the list and kept otherwise. -/
theorem foldl_set_r (new_state : thread_state_t) (l : List (Fin 64)) (state : arm_vfp_state) :
    (l.foldl (fun state i => state.set_r i (new_state i.val)) state).fpscr = state.fpscr ∧
    ∀ j : Fin 64,
      (l.foldl (fun state i => state.set_r i (new_state i.val)) state).r j
        = if j ∈ l then new_state j.val else state.r j := by
  induction l generalizing state with
  | nil => simp
  | cons a l ih =>
    obtain ⟨h1, h2⟩ := ih (state.set_r a (new_state a.val))
    refine ⟨by rw [List.foldl_cons, h1]; rfl, fun j => ?_⟩
    rw [List.foldl_cons, h2 j]
    by_cases hj : j ∈ l
    · simp [hj]
    · by_cases hja : j = a
      · subst hja
        simp [hj, arm_vfp_state.set_r]
      · simp [hj, hja, arm_vfp_state.set_r]

/-- After the copy loop of the floating-point Set every register comes from the
buffer and `fpscr` is as before. -/
theorem vfp_copy_in_eq (new_state : thread_state_t) (state : arm_vfp_state) :
    vfp_copy_in new_state state = { r := fun j => new_state j.val, fpscr := state.fpscr } := by
  obtain ⟨h1, h2⟩ := foldl_set_r new_state (List.finRange 64) state
  have hr : (vfp_copy_in new_state state).r = fun j => new_state j.val := by
    funext j
    have := h2 j
    simp only [List.mem_finRange, if_true] at this
    exact this
  have hf : (vfp_copy_in new_state state).fpscr = state.fpscr := h1
  cases hv : vfp_copy_in new_state state with
  | mk r fpscr =>
    rw [hv] at hr hf
    simp only [] at hr hf
    rw [hr, hf]

/-- A successful general-purpose Set: the thread's own storage receives the buffer's
words, the control word through the sanitiser; nothing else changes. -/
theorem set_state_thread_state (c : thread_status_consts) (thread : thread_t)
    (tstate : thread_state_t) (count : Nat) (h : ARM_THREAD_STATE_COUNT ≤ count) :
    machine_thread_set_state c thread c.ARM_THREAD_STATE tstate count
      = (KERN_SUCCESS,
          { thread with machine := { thread.machine with
              user_regs :=
                { r := fun i => tstate i.val
                  sp := tstate TS_sp
                  lr := tstate TS_lr
                  pc := tstate TS_pc
                  cpsr := sanitise_cpsr (tstate TS_cpsr) } } }) := by
  have hc : ¬ count < ARM_THREAD_STATE_COUNT := not_lt.mpr h
  simp only [machine_thread_set_state, set_state_validate, if_true, hc, if_false,
    arm_thread_state.set_r]
  have hr : ∀ i : Fin 13,
      Function.update (Function.update (Function.update (Function.update (Function.update
        (Function.update (Function.update (Function.update (Function.update (Function.update
        (Function.update (Function.update (Function.update thread.machine.user_regs.r
          0 (tstate 0)) 1 (tstate 1)) 2 (tstate 2)) 3 (tstate 3)) 4 (tstate 4)) 5 (tstate 5))
          6 (tstate 6)) 7 (tstate 7)) 8 (tstate 8)) 9 (tstate 9)) 10 (tstate 10))
          11 (tstate 11)) 12 (tstate 12) i = tstate i.val := by
    intro i
    fin_cases i <;> simp [Function.update]
  rw [funext hr]

/-- A successful floating-point Set: the floating-point state receives the buffer's
65 words; nothing else changes. -/
theorem set_state_vfp_state (c : thread_status_consts) (thread : thread_t)
    (tstate : thread_state_t) (count : Nat) (h : ARM_VFP_STATE_COUNT ≤ count) :
    machine_thread_set_state c thread c.ARM_VFP_STATE tstate count
      = (KERN_SUCCESS,
          { thread with machine := { thread.machine with
              vfp_regs := { r := fun i => tstate i.val, fpscr := tstate VFP_fpscr } } }) := by
  obtain ⟨-, -, -, -, -, -, -, -, -, c1, -, -, -, d2, -⟩ := labels_ne c
  have hc : ¬ count < ARM_VFP_STATE_COUNT := not_lt.mpr h
  have e1 : ¬ ((c.ARM_VFP_STATE : Int) = (c.ARM_THREAD_STATE : Int)) := by simpa using Ne.symm c1
  have e2 : ¬ ((c.ARM_VFP_STATE : Int) = (c.ARM_DEBUG_STATE : Int)) := by simpa using d2
  simp only [machine_thread_set_state, set_state_validate, if_true, hc, if_false, e1, e2,
    vfp_copy_in_eq]

/-- A successful general-purpose Get: the buffer receives the 17 words of the storage
that the reference designates, the words from 17 on are untouched, the count
becomes `ARM_THREAD_STATE_COUNT` and the thread is as before. -/
theorem get_state_thread_state (c : thread_status_consts) (thr_act : thread_t)
    (tstate : thread_state_t) (count : Nat) (h : ARM_THREAD_STATE_COUNT ≤ count) :
    (machine_thread_get_state c thr_act c.ARM_THREAD_STATE tstate count).ret = KERN_SUCCESS ∧
    (machine_thread_get_state c thr_act c.ARM_THREAD_STATE tstate count).thr_act = thr_act ∧
    (machine_thread_get_state c thr_act c.ARM_THREAD_STATE tstate count).count
      = ARM_THREAD_STATE_COUNT ∧
    (∀ i : Fin 13,
      (machine_thread_get_state c thr_act c.ARM_THREAD_STATE tstate count).tstate i.val
        = (thr_act.load thr_act.machine.uss).r i) ∧
    (machine_thread_get_state c thr_act c.ARM_THREAD_STATE tstate count).tstate TS_sp
      = (thr_act.load thr_act.machine.uss).sp ∧
    (machine_thread_get_state c thr_act c.ARM_THREAD_STATE tstate count).tstate TS_lr
      = (thr_act.load thr_act.machine.uss).lr ∧
    (machine_thread_get_state c thr_act c.ARM_THREAD_STATE tstate count).tstate TS_pc
      = (thr_act.load thr_act.machine.uss).pc ∧
    (machine_thread_get_state c thr_act c.ARM_THREAD_STATE tstate count).tstate TS_cpsr
      = (thr_act.load thr_act.machine.uss).cpsr ∧
    (∀ j, 17 ≤ j →
      (machine_thread_get_state c thr_act c.ARM_THREAD_STATE tstate count).tstate j
        = tstate j) := by
  obtain ⟨-, a2, -, -, -, b1, -⟩ := labels_ne c
  have hc : ¬ count < ARM_THREAD_STATE_COUNT := not_lt.mpr h
  have e1 : ¬ ((c.ARM_THREAD_STATE : Int) = (c.THREAD_STATE_FLAVOR_LIST : Int)) := by
    simpa using Ne.symm a2
  have e2 : ¬ ((c.ARM_THREAD_STATE : Int) = (c.THREAD_STATE_FLAVOR_LIST_NEW : Int)) := by
    simpa using Ne.symm b1
  simp only [machine_thread_get_state, if_true, hc, if_false, e1, e2]
  refine ⟨trivial, trivial, trivial, fun i => ?_, ?_, ?_, ?_, ?_, fun j hj => ?_⟩
  · fin_cases i <;> simp [Function.update, TS_sp, TS_lr, TS_pc, TS_cpsr]
  · simp [Function.update, TS_sp, TS_lr, TS_pc, TS_cpsr]
  · simp [Function.update, TS_sp, TS_lr, TS_pc, TS_cpsr]
  · simp [Function.update, TS_sp, TS_lr, TS_pc, TS_cpsr]
  · simp [Function.update, TS_sp, TS_lr, TS_pc, TS_cpsr]
  · have : j ≠ 0 ∧ j ≠ 1 ∧ j ≠ 2 ∧ j ≠ 3 ∧ j ≠ 4 ∧ j ≠ 5 ∧ j ≠ 6 ∧ j ≠ 7 ∧ j ≠ 8 ∧ j ≠ 9 ∧
        j ≠ 10 ∧ j ≠ 11 ∧ j ≠ 12 ∧ j ≠ 13 ∧ j ≠ 14 ∧ j ≠ 15 ∧ j ≠ 16 := by omega
    obtain ⟨n0, n1, n2, n3, n4, n5, n6, n7, n8, n9, n10, n11, n12, n13, n14, n15, n16⟩ := this
    simp [Function.update, TS_sp, TS_lr, TS_pc, TS_cpsr, n0, n1, n2, n3, n4, n5, n6, n7, n8, n9,
      n10, n11, n12, n13, n14, n15, n16]

/-- C2: on a thread whose reference designates its own storage, a Set of
`ARM_THREAD_STATE` from a buffer `G` (count at least `ARM_THREAD_STATE_COUNT`)
followed by a Get of `ARM_THREAD_STATE` succeeds and returns `G` in `r[0..12]`,
`sp`, `lr` and `pc`, and `sanitise_cpsr` of `G`'s control word in `cpsr`. -/
theorem set_get_roundtrip_own (c : thread_status_consts) (thread : thread_t)
    (G G0 : thread_state_t) (count count0 : Nat)
    (hown : thread.machine.uss = saved_state_ptr.user_regs)
    (h : ARM_THREAD_STATE_COUNT ≤ count) (h0 : ARM_THREAD_STATE_COUNT ≤ count0) :
    (machine_thread_set_state c thread c.ARM_THREAD_STATE G count).1 = KERN_SUCCESS ∧
    (machine_thread_get_state c (machine_thread_set_state c thread c.ARM_THREAD_STATE G count).2
        c.ARM_THREAD_STATE G0 count0).ret = KERN_SUCCESS ∧
    (∀ i : Fin 13,
      (machine_thread_get_state c (machine_thread_set_state c thread c.ARM_THREAD_STATE G count).2
        c.ARM_THREAD_STATE G0 count0).tstate i.val = G i.val) ∧
    (machine_thread_get_state c (machine_thread_set_state c thread c.ARM_THREAD_STATE G count).2
        c.ARM_THREAD_STATE G0 count0).tstate TS_sp = G TS_sp ∧
    (machine_thread_get_state c (machine_thread_set_state c thread c.ARM_THREAD_STATE G count).2
        c.ARM_THREAD_STATE G0 count0).tstate TS_lr = G TS_lr ∧
    (machine_thread_get_state c (machine_thread_set_state c thread c.ARM_THREAD_STATE G count).2
        c.ARM_THREAD_STATE G0 count0).tstate TS_pc = G TS_pc ∧
    (machine_thread_get_state c (machine_thread_set_state c thread c.ARM_THREAD_STATE G count).2
        c.ARM_THREAD_STATE G0 count0).tstate TS_cpsr = sanitise_cpsr (G TS_cpsr) := by
  obtain ⟨⟨ur, uss, vfp, es⟩, saved⟩ := thread
  simp only [] at hown
  subst hown
  rw [set_state_thread_state c _ G count h]
  obtain ⟨g1, -, -, g4, g5, g6, g7, g8, -⟩ := get_state_thread_state c
    ⟨⟨⟨fun i => G i.val, G TS_sp, G TS_lr, G TS_pc, sanitise_cpsr (G TS_cpsr)⟩,
      saved_state_ptr.user_regs, vfp, es⟩, saved⟩ G0 count0 h0
  exact ⟨rfl, g1, g4, g5, g6, g7, g8⟩

/-- Witness of C2 on `own_thread` with the buffer `succ_buffer`: `sp` comes back as 14
and the control word 17 comes back sanitised. -/
theorem set_get_roundtrip_own_witness :
    (machine_thread_get_state mach_consts
        (machine_thread_set_state mach_consts own_thread mach_consts.ARM_THREAD_STATE
          succ_buffer 17).2
        mach_consts.ARM_THREAD_STATE zero_buffer 17).tstate TS_sp = 14 ∧
    (machine_thread_get_state mach_consts
        (machine_thread_set_state mach_consts own_thread mach_consts.ARM_THREAD_STATE
          succ_buffer 17).2
        mach_consts.ARM_THREAD_STATE zero_buffer 17).tstate TS_cpsr = sanitise_cpsr 17 :=
  ⟨(set_get_roundtrip_own mach_consts own_thread succ_buffer zero_buffer 17 17 rfl
      (by decide) (by decide)).2.2.2.1,
    (set_get_roundtrip_own mach_consts own_thread succ_buffer zero_buffer 17 17 rfl
      (by decide) (by decide)).2.2.2.2.2.2⟩

/-- Counterexample to C2 as stated: on a thread whose reference is redirected, the Set
writes the thread's own storage and the Get reads the designated storage, so
`r[0]` comes back as 0 although the buffer that was set holds 1. -/
theorem set_get_roundtrip_redirected :
    (machine_thread_set_state mach_consts redirected_thread mach_consts.ARM_THREAD_STATE
        succ_buffer 17).1 = KERN_SUCCESS ∧
    (machine_thread_get_state mach_consts
        (machine_thread_set_state mach_consts redirected_thread mach_consts.ARM_THREAD_STATE
          succ_buffer 17).2
        mach_consts.ARM_THREAD_STATE zero_buffer 17).ret = KERN_SUCCESS ∧
    (machine_thread_get_state mach_consts
        (machine_thread_set_state mach_consts redirected_thread mach_consts.ARM_THREAD_STATE
          succ_buffer 17).2
        mach_consts.ARM_THREAD_STATE zero_buffer 17).tstate 0 = 0 ∧
    succ_buffer 0 = 1 ∧
    (machine_thread_get_state mach_consts
        (machine_thread_set_state mach_consts redirected_thread mach_consts.ARM_THREAD_STATE
          succ_buffer 17).2
        mach_consts.ARM_THREAD_STATE zero_buffer 17).tstate 0 ≠ succ_buffer 0 := by
  decide

/-- The Get of every flavor other than `ARM_DEBUG_STATE` is rejected without effect
when the flavor is unknown or the count is below the flavor's required size. -/
theorem get_state_rejects (c : thread_status_consts) (thr_act : thread_t) (flavor : Int)
    (tstate : thread_state_t) (count : Nat)
    (h : (flavor ≠ c.THREAD_STATE_FLAVOR_LIST ∧ flavor ≠ c.THREAD_STATE_FLAVOR_LIST_NEW ∧
          flavor ≠ c.ARM_THREAD_STATE ∧ flavor ≠ c.ARM_VFP_STATE ∧
          flavor ≠ c.ARM_EXCEPTION_STATE ∧ flavor ≠ c.ARM_DEBUG_STATE) ∨
        (flavor = c.THREAD_STATE_FLAVOR_LIST ∧ count < 3) ∨
        (flavor = c.THREAD_STATE_FLAVOR_LIST_NEW ∧ count < 4) ∨
        (flavor = c.ARM_THREAD_STATE ∧ count < ARM_THREAD_STATE_COUNT) ∨
        (flavor = c.ARM_VFP_STATE ∧ count < ARM_VFP_STATE_COUNT) ∨
        (flavor = c.ARM_EXCEPTION_STATE ∧ count < ARM_EXCEPTION_STATE_COUNT)) :
    machine_thread_get_state c thr_act flavor tstate count
      = ⟨KERN_INVALID_ARGUMENT, thr_act, tstate, count⟩ := by
  obtain ⟨a1, a2, a3, a4, -, b1, b2, b3, -, c1, c2, -, d1, -, -⟩ := labels_ne c
  rcases h with ⟨h1, h2, h3, h4, h5, h6⟩ | ⟨rfl, h⟩ | ⟨rfl, h⟩ | ⟨rfl, h⟩ | ⟨rfl, h⟩ | ⟨rfl, h⟩
  · simp [machine_thread_get_state, h1, h2, h3, h4, h5, h6]
  · simp [machine_thread_get_state, h]
  · simp [machine_thread_get_state, h, Ne.symm a1]
  · simp [machine_thread_get_state, h, Ne.symm a2, Ne.symm b1]
  · simp [machine_thread_get_state, h, Ne.symm a3, Ne.symm b2, Ne.symm c1]
  · simp [machine_thread_get_state, h, Ne.symm a4, Ne.symm b3, Ne.symm c2, Ne.symm d1]

/-- The Get of `ARM_DEBUG_STATE` never looks at the count: it succeeds and changes
nothing, whatever the count. -/
theorem get_state_debug (c : thread_status_consts) (thr_act : thread_t)
    (tstate : thread_state_t) (count : Nat) :
    machine_thread_get_state c thr_act c.ARM_DEBUG_STATE tstate count
      = ⟨KERN_SUCCESS, thr_act, tstate, count⟩ := by
  obtain ⟨-, -, -, -, a5, -, -, -, b4, -, -, c3, -, d2, e1⟩ := labels_ne c
  simp [machine_thread_get_state, Ne.symm a5, Ne.symm b4, Ne.symm c3, Ne.symm d2, Ne.symm e1]

/-- C4 at its failing input: the Get of `ARM_DEBUG_STATE` with count 0, below
`ARM_DEBUG_STATE_COUNT = 64`, returns `KERN_SUCCESS` where the claim requires
`KERN_INVALID_ARGUMENT`. -/
theorem get_state_debug_undersized :
    (0 : Nat) < mach_consts.ARM_DEBUG_STATE_COUNT ∧
    (machine_thread_get_state mach_consts own_thread mach_consts.ARM_DEBUG_STATE
      zero_buffer 0).ret = KERN_SUCCESS := by
  decide

/-- What a save does on a thread, for any allocated block: the thread is unchanged and
the returned snapshot holds, in both members, the result of a Get of
`ARM_THREAD_STATE` (the source asks for that flavor twice). -/
theorem act_thread_csave_eq (c : thread_status_consts) (thr_act : thread_t)
    (ic : arm_act_context) :
    act_thread_csave c thr_act (some ic)
      = (thr_act, some
          { ss := (machine_thread_get_state c thr_act c.ARM_THREAD_STATE ic.ss
                    ARM_THREAD_STATE_COUNT).tstate
            fs := (machine_thread_get_state c thr_act c.ARM_THREAD_STATE ic.fs
                    ARM_VFP_STATE_COUNT).tstate }) := by
  obtain ⟨a1, a2, -⟩ := get_state_thread_state c thr_act ic.ss ARM_THREAD_STATE_COUNT le_rfl
  obtain ⟨b1, b2, -⟩ := get_state_thread_state c thr_act ic.fs ARM_VFP_STATE_COUNT (by decide)
  simp only [act_thread_csave, a1, a2, b1, b2, ne_eq, not_true_eq_false, if_false]

/-- What a save followed by a restore does on a self-referencing thread, for any
allocated block: the general-purpose state comes back with its control word
sanitised, and the first 17 floating-point registers receive the general-purpose
words `r[0..12]`, `sp`, `lr`, `pc`, `cpsr`. -/
theorem csave_catt_effect (c : thread_status_consts) (thr_act : thread_t)
    (ic : arm_act_context) (hown : thr_act.machine.uss = saved_state_ptr.user_regs) :
    (act_thread_catt c (act_thread_csave c thr_act (some ic)).1
        (act_thread_csave c thr_act (some ic)).2).machine.user_regs
      = { thr_act.machine.user_regs with
            cpsr := sanitise_cpsr thr_act.machine.user_regs.cpsr } ∧
    (∀ i : Fin 13,
      (act_thread_catt c (act_thread_csave c thr_act (some ic)).1
          (act_thread_csave c thr_act (some ic)).2).machine.vfp_regs.r
            (Fin.castLE (by decide) i)
        = thr_act.machine.user_regs.r i) ∧
    (act_thread_catt c (act_thread_csave c thr_act (some ic)).1
        (act_thread_csave c thr_act (some ic)).2).machine.vfp_regs.r 13
      = thr_act.machine.user_regs.sp := by
  obtain ⟨⟨ur, uss, vfp, es⟩, saved⟩ := thr_act
  simp only [] at hown
  subst hown
  obtain ⟨-, -, -, a4, a5, a6, a7, a8, -⟩ := get_state_thread_state c
    ⟨⟨ur, saved_state_ptr.user_regs, vfp, es⟩, saved⟩ ic.ss ARM_THREAD_STATE_COUNT le_rfl
  obtain ⟨-, -, -, b4, b5, -⟩ := get_state_thread_state c
    ⟨⟨ur, saved_state_ptr.user_regs, vfp, es⟩, saved⟩ ic.fs ARM_VFP_STATE_COUNT (by decide)
  simp only [thread_t.load] at a4 a5 a6 a7 a8 b4 b5
  rw [act_thread_csave_eq]
  simp only [act_thread_catt]
  rw [set_state_thread_state c _ _ _ le_rfl]
  simp only [if_true]
  rw [set_state_vfp_state c _ _ _ le_rfl]
  simp only [a5, a6, a7, a8]
  refine ⟨?_, fun i => ?_, ?_⟩
  · rw [funext a4]
  · exact b4 i
  · exact b5

/-- C5 at its failing input: the snapshot is taken and restored on a self-referencing
thread with sanitised control word, and register 1 of the floating-point state,
which held 1 before the save, holds 2 (general register 1) after the restore. -/
theorem csave_catt_clobbers_vfp :
    established_thread.machine.uss = saved_state_ptr.user_regs ∧
    established_thread.machine.user_regs.cpsr
      = sanitise_cpsr established_thread.machine.user_regs.cpsr ∧
    (act_thread_csave mach_consts established_thread (some fresh_block)).2.isSome = true ∧
    established_thread.machine.vfp_regs.r 1 = 1 ∧
    (act_thread_catt mach_consts
        (act_thread_csave mach_consts established_thread (some fresh_block)).1
        (act_thread_csave mach_consts established_thread (some fresh_block)).2).machine.vfp_regs.r 1
      = 2 := by
  decide

/-! ## The remaining flavors -/

/-- The copy loop of the floating-point Get, over any list of indices: a buffer word
below 64 is taken from the saved state when its index is in the list, and every
other word is kept. -/
theorem foldl_update_out (saved_state : arm_vfp_state) (l : List (Fin 64))
    (tstate : thread_state_t) :
    (∀ j : Fin 64,
      (l.foldl (fun state i => Function.update state i.val (saved_state.r i)) tstate) j.val
        = if j ∈ l then saved_state.r j else tstate j.val) ∧
    (∀ k : Nat, 64 ≤ k →
      (l.foldl (fun state i => Function.update state i.val (saved_state.r i)) tstate) k
        = tstate k) := by
  induction l generalizing tstate with
  | nil => simp
  | cons a l ih =>
    obtain ⟨h1, h2⟩ := ih (Function.update tstate a.val (saved_state.r a))
    refine ⟨fun j => ?_, fun k hk => ?_⟩
    · rw [List.foldl_cons, h1 j]
      by_cases hj : j ∈ l
      · simp [hj]
      · by_cases hja : j = a
        · subst hja
          simp [hj]
        · have hv : j.val ≠ a.val := fun e => hja (Fin.ext e)
          simp [hj, hja, Function.update, hv]
    · rw [List.foldl_cons, h2 k hk]
      have hv : k ≠ a.val := by have := a.isLt; omega
      simp [Function.update, hv]

/-- After the copy loop of the floating-point Get the first 64 words are the
registers and the other words are as before. -/
theorem vfp_copy_out_spec (saved_state : arm_vfp_state) (tstate : thread_state_t) :
    (∀ j : Fin 64, vfp_copy_out saved_state tstate j.val = saved_state.r j) ∧
    (∀ k : Nat, 64 ≤ k → vfp_copy_out saved_state tstate k = tstate k) := by
  obtain ⟨h1, h2⟩ := foldl_update_out saved_state (List.finRange 64) tstate
  refine ⟨fun j => ?_, h2⟩
  have := h1 j
  simp only [List.mem_finRange, if_true] at this
  exact this

/-- A successful floating-point Get: the buffer receives the 64 registers and
`fpscr`, the words from 65 on are untouched, the count becomes
`ARM_VFP_STATE_COUNT` and the thread is as before. -/
theorem get_state_vfp_state (c : thread_status_consts) (thr_act : thread_t)
    (tstate : thread_state_t) (count : Nat) (h : ARM_VFP_STATE_COUNT ≤ count) :
    (machine_thread_get_state c thr_act c.ARM_VFP_STATE tstate count).ret = KERN_SUCCESS ∧
    (machine_thread_get_state c thr_act c.ARM_VFP_STATE tstate count).thr_act = thr_act ∧
    (machine_thread_get_state c thr_act c.ARM_VFP_STATE tstate count).count
      = ARM_VFP_STATE_COUNT ∧
    (∀ i : Fin 64,
      (machine_thread_get_state c thr_act c.ARM_VFP_STATE tstate count).tstate i.val
        = thr_act.machine.vfp_regs.r i) ∧
    (machine_thread_get_state c thr_act c.ARM_VFP_STATE tstate count).tstate VFP_fpscr
      = thr_act.machine.vfp_regs.fpscr ∧
    (∀ j, 65 ≤ j →
      (machine_thread_get_state c thr_act c.ARM_VFP_STATE tstate count).tstate j
        = tstate j) := by
  obtain ⟨-, -, a3, -, -, -, b2, -, -, c1, -⟩ := labels_ne c
  obtain ⟨v1, v2⟩ := vfp_copy_out_spec thr_act.machine.vfp_regs tstate
  have hc : ¬ count < ARM_VFP_STATE_COUNT := not_lt.mpr h
  have e1 : ¬ ((c.ARM_VFP_STATE : Int) = (c.THREAD_STATE_FLAVOR_LIST : Int)) := by
    simpa using Ne.symm a3
  have e2 : ¬ ((c.ARM_VFP_STATE : Int) = (c.THREAD_STATE_FLAVOR_LIST_NEW : Int)) := by
    simpa using Ne.symm b2
  have e3 : ¬ ((c.ARM_VFP_STATE : Int) = (c.ARM_THREAD_STATE : Int)) := by
    simpa using Ne.symm c1
  simp only [machine_thread_get_state, if_true, hc, if_false, e1, e2, e3]
  refine ⟨trivial, trivial, trivial, fun i => ?_, ?_, fun j hj => ?_⟩
  · have hv : i.val ≠ VFP_fpscr := by have := i.isLt; unfold VFP_fpscr; omega
    simp only [Function.update, hv, dite_false, eq_rec_constant]
    exact v1 i
  · simp [Function.update]
  · have hv : j ≠ VFP_fpscr := by unfold VFP_fpscr; omega
    simp only [Function.update, hv, dite_false, eq_rec_constant]
    exact v2 j (by omega)

/-- A successful exception Get: the buffer receives `fsr`, `far` and `exception`, the
words from 3 on are untouched, the count becomes `ARM_EXCEPTION_STATE_COUNT` and
the thread is as before. -/
theorem get_state_exception_state (c : thread_status_consts) (thr_act : thread_t)
    (tstate : thread_state_t) (count : Nat) (h : ARM_EXCEPTION_STATE_COUNT ≤ count) :
    (machine_thread_get_state c thr_act c.ARM_EXCEPTION_STATE tstate count).ret
      = KERN_SUCCESS ∧
    (machine_thread_get_state c thr_act c.ARM_EXCEPTION_STATE tstate count).thr_act
      = thr_act ∧
    (machine_thread_get_state c thr_act c.ARM_EXCEPTION_STATE tstate count).count
      = ARM_EXCEPTION_STATE_COUNT ∧
    (machine_thread_get_state c thr_act c.ARM_EXCEPTION_STATE tstate count).tstate ES_fsr
      = thr_act.machine.es.fsr ∧
    (machine_thread_get_state c thr_act c.ARM_EXCEPTION_STATE tstate count).tstate ES_far
      = thr_act.machine.es.far ∧
    (machine_thread_get_state c thr_act c.ARM_EXCEPTION_STATE tstate count).tstate ES_exception
      = thr_act.machine.es.exception ∧
    (∀ j, 3 ≤ j →
      (machine_thread_get_state c thr_act c.ARM_EXCEPTION_STATE tstate count).tstate j
        = tstate j) := by
  obtain ⟨-, -, -, a4, -, -, -, b3, -, -, c2, -, d1, -, -⟩ := labels_ne c
  have hc : ¬ count < ARM_EXCEPTION_STATE_COUNT := not_lt.mpr h
  have e1 : ¬ ((c.ARM_EXCEPTION_STATE : Int) = (c.THREAD_STATE_FLAVOR_LIST : Int)) := by
    simpa using Ne.symm a4
  have e2 : ¬ ((c.ARM_EXCEPTION_STATE : Int) = (c.THREAD_STATE_FLAVOR_LIST_NEW : Int)) := by
    simpa using Ne.symm b3
  have e3 : ¬ ((c.ARM_EXCEPTION_STATE : Int) = (c.ARM_THREAD_STATE : Int)) := by
    simpa using Ne.symm c2
  have e4 : ¬ ((c.ARM_EXCEPTION_STATE : Int) = (c.ARM_VFP_STATE : Int)) := by
    simpa using Ne.symm d1
  simp only [machine_thread_get_state, if_true, hc, if_false, e1, e2, e3, e4]
  refine ⟨trivial, trivial, trivial, ?_, ?_, ?_, fun j hj => ?_⟩
  · simp [Function.update, ES_fsr, ES_far, ES_exception]
  · simp [Function.update, ES_fsr, ES_far, ES_exception]
  · simp [Function.update, ES_fsr, ES_far, ES_exception]
  · have : j ≠ 0 ∧ j ≠ 1 ∧ j ≠ 2 := by omega
    obtain ⟨n0, n1, n2⟩ := this
    simp [Function.update, ES_fsr, ES_far, ES_exception, n0, n1, n2]

/-- A successful exception Set: the exception state receives the buffer's three
words; nothing else changes. -/
theorem set_state_exception_state (c : thread_status_consts) (thread : thread_t)
    (tstate : thread_state_t) (count : Nat) (h : ARM_EXCEPTION_STATE_COUNT ≤ count) :
    machine_thread_set_state c thread c.ARM_EXCEPTION_STATE tstate count
      = (KERN_SUCCESS,
          { thread with machine := { thread.machine with
              es := { fsr := tstate ES_fsr, far := tstate ES_far,
                      exception := tstate ES_exception } } }) := by
  obtain ⟨-, -, -, -, -, -, -, -, -, -, c2, -, d1, -, e1⟩ := labels_ne c
  have hc : ¬ count < ARM_EXCEPTION_STATE_COUNT := not_lt.mpr h
  have f1 : ¬ ((c.ARM_EXCEPTION_STATE : Int) = (c.ARM_THREAD_STATE : Int)) := by
    simpa using Ne.symm c2
  have f2 : ¬ ((c.ARM_EXCEPTION_STATE : Int) = (c.ARM_VFP_STATE : Int)) := by
    simpa using Ne.symm d1
  have f3 : ¬ ((c.ARM_EXCEPTION_STATE : Int) = (c.ARM_DEBUG_STATE : Int)) := by
    simpa using e1
  simp only [machine_thread_set_state, set_state_validate, if_true, hc, if_false, f1, f2, f3]

/-- A successful debug Set changes nothing. -/
theorem set_state_debug_state (c : thread_status_consts) (thread : thread_t)
    (tstate : thread_state_t) (count : Nat) (h : c.ARM_DEBUG_STATE_COUNT ≤ count) :
    machine_thread_set_state c thread c.ARM_DEBUG_STATE tstate count
      = (KERN_SUCCESS, thread) := by
  obtain ⟨-, -, -, -, -, -, -, -, -, -, -, c3, -, d2, e1⟩ := labels_ne c
  have hc : ¬ count < c.ARM_DEBUG_STATE_COUNT := not_lt.mpr h
  have f1 : ¬ ((c.ARM_DEBUG_STATE : Int) = (c.ARM_THREAD_STATE : Int)) := by
    simpa using Ne.symm c3
  have f2 : ¬ ((c.ARM_DEBUG_STATE : Int) = (c.ARM_VFP_STATE : Int)) := by
    simpa using Ne.symm d2
  have f3 : ¬ ((c.ARM_DEBUG_STATE : Int) = (c.ARM_EXCEPTION_STATE : Int)) := by
    simpa using Ne.symm e1
  simp only [machine_thread_set_state, set_state_validate, if_true, hc, if_false, f1, f2, f3]

/-- C13: with a count of at least the flavor's required count, the Get of
`ARM_THREAD_STATE` succeeds and returns the 17 fields (control word as stored) of
the storage that `uss` designates; the Get of `ARM_VFP_STATE` returns the 64
registers and `fpscr`; the Get of `ARM_EXCEPTION_STATE` returns `fsr`, `far` and
`exception`; each sets the count to exactly the required count. -/
theorem get_state_success (c : thread_status_consts) (thr_act : thread_t)
    (tstate : thread_state_t) (count : Nat) :
    (ARM_THREAD_STATE_COUNT ≤ count →
      (machine_thread_get_state c thr_act c.ARM_THREAD_STATE tstate count).ret = KERN_SUCCESS ∧
      (machine_thread_get_state c thr_act c.ARM_THREAD_STATE tstate count).count
        = ARM_THREAD_STATE_COUNT ∧
      (∀ i : Fin 13,
        (machine_thread_get_state c thr_act c.ARM_THREAD_STATE tstate count).tstate i.val
          = (thr_act.load thr_act.machine.uss).r i) ∧
      (machine_thread_get_state c thr_act c.ARM_THREAD_STATE tstate count).tstate TS_sp
        = (thr_act.load thr_act.machine.uss).sp ∧
      (machine_thread_get_state c thr_act c.ARM_THREAD_STATE tstate count).tstate TS_lr
        = (thr_act.load thr_act.machine.uss).lr ∧
      (machine_thread_get_state c thr_act c.ARM_THREAD_STATE tstate count).tstate TS_pc
        = (thr_act.load thr_act.machine.uss).pc ∧
      (machine_thread_get_state c thr_act c.ARM_THREAD_STATE tstate count).tstate TS_cpsr
        = (thr_act.load thr_act.machine.uss).cpsr) ∧
    (ARM_VFP_STATE_COUNT ≤ count →
      (machine_thread_get_state c thr_act c.ARM_VFP_STATE tstate count).ret = KERN_SUCCESS ∧
      (machine_thread_get_state c thr_act c.ARM_VFP_STATE tstate count).count
        = ARM_VFP_STATE_COUNT ∧
      (∀ i : Fin 64,
        (machine_thread_get_state c thr_act c.ARM_VFP_STATE tstate count).tstate i.val
          = thr_act.machine.vfp_regs.r i) ∧
      (machine_thread_get_state c thr_act c.ARM_VFP_STATE tstate count).tstate VFP_fpscr
        = thr_act.machine.vfp_regs.fpscr) ∧
    (ARM_EXCEPTION_STATE_COUNT ≤ count →
      (machine_thread_get_state c thr_act c.ARM_EXCEPTION_STATE tstate count).ret
        = KERN_SUCCESS ∧
      (machine_thread_get_state c thr_act c.ARM_EXCEPTION_STATE tstate count).count
        = ARM_EXCEPTION_STATE_COUNT ∧
      (machine_thread_get_state c thr_act c.ARM_EXCEPTION_STATE tstate count).tstate ES_fsr
        = thr_act.machine.es.fsr ∧
      (machine_thread_get_state c thr_act c.ARM_EXCEPTION_STATE tstate count).tstate ES_far
        = thr_act.machine.es.far ∧
      (machine_thread_get_state c thr_act c.ARM_EXCEPTION_STATE tstate count).tstate
          ES_exception
        = thr_act.machine.es.exception) := by
  refine ⟨fun h => ?_, fun h => ?_, fun h => ?_⟩
  · obtain ⟨g1, -, g3, g4, g5, g6, g7, g8, -⟩ := get_state_thread_state c thr_act tstate count h
    exact ⟨g1, g3, g4, g5, g6, g7, g8⟩
  · obtain ⟨g1, -, g3, g4, g5, -⟩ := get_state_vfp_state c thr_act tstate count h
    exact ⟨g1, g3, g4, g5⟩
  · obtain ⟨g1, -, g3, g4, g5, g6, -⟩ := get_state_exception_state c thr_act tstate count h
    exact ⟨g1, g3, g4, g5, g6⟩

/-- Witness of C13 with capacity 100, larger than every required count: on the
redirected thread the general-purpose Get returns the designated storage
(`r[1] = 0`, not the thread's own 99) and count 17; the floating-point Get returns
register 63 and count 65; the exception Get returns count 3. -/
theorem get_state_success_witness :
    (machine_thread_get_state mach_consts redirected_thread mach_consts.ARM_THREAD_STATE
        succ_buffer 100).count = 17 ∧
    (machine_thread_get_state mach_consts redirected_thread mach_consts.ARM_THREAD_STATE
        succ_buffer 100).tstate 1 = 0 ∧
    (machine_thread_get_state mach_consts redirected_thread mach_consts.ARM_VFP_STATE
        succ_buffer 100).count = 65 ∧
    (machine_thread_get_state mach_consts redirected_thread mach_consts.ARM_VFP_STATE
        succ_buffer 100).tstate 63 = 1 ∧
    (machine_thread_get_state mach_consts redirected_thread mach_consts.ARM_EXCEPTION_STATE
        succ_buffer 100).count = 3 :=
  ⟨((get_state_success mach_consts redirected_thread succ_buffer 100).1 (by decide)).2.1,
    ((get_state_success mach_consts redirected_thread succ_buffer 100).1 (by decide)).2.2.1 1,
    ((get_state_success mach_consts redirected_thread succ_buffer 100).2.1 (by decide)).2.1,
    ((get_state_success mach_consts redirected_thread succ_buffer 100).2.1 (by decide)).2.2.1 63,
    ((get_state_success mach_consts redirected_thread succ_buffer 100).2.2 (by decide)).2.1⟩

/-- C18: whatever the thread and wherever its reference points, a Set of
`ARM_VFP_STATE` from `F` followed by a Get of `ARM_VFP_STATE` returns the 64
registers and `fpscr` of `F` unchanged, and a Set of `ARM_EXCEPTION_STATE` from
`E` followed by a Get of `ARM_EXCEPTION_STATE` returns `fsr`, `far` and
`exception` of `E` unchanged (counts at least the required counts). -/
theorem vfp_exception_roundtrip (c : thread_status_consts) (thread : thread_t)
    (F E G0 : thread_state_t) (count count0 : Nat) :
    (ARM_VFP_STATE_COUNT ≤ count → ARM_VFP_STATE_COUNT ≤ count0 →
      (machine_thread_set_state c thread c.ARM_VFP_STATE F count).1 = KERN_SUCCESS ∧
      (machine_thread_get_state c (machine_thread_set_state c thread c.ARM_VFP_STATE F count).2
          c.ARM_VFP_STATE G0 count0).ret = KERN_SUCCESS ∧
      (∀ i : Fin 64,
        (machine_thread_get_state c (machine_thread_set_state c thread c.ARM_VFP_STATE F count).2
          c.ARM_VFP_STATE G0 count0).tstate i.val = F i.val) ∧
      (machine_thread_get_state c (machine_thread_set_state c thread c.ARM_VFP_STATE F count).2
          c.ARM_VFP_STATE G0 count0).tstate VFP_fpscr = F VFP_fpscr) ∧
    (ARM_EXCEPTION_STATE_COUNT ≤ count → ARM_EXCEPTION_STATE_COUNT ≤ count0 →
      (machine_thread_set_state c thread c.ARM_EXCEPTION_STATE E count).1 = KERN_SUCCESS ∧
      (machine_thread_get_state c
          (machine_thread_set_state c thread c.ARM_EXCEPTION_STATE E count).2
          c.ARM_EXCEPTION_STATE G0 count0).ret = KERN_SUCCESS ∧
      (machine_thread_get_state c
          (machine_thread_set_state c thread c.ARM_EXCEPTION_STATE E count).2
          c.ARM_EXCEPTION_STATE G0 count0).tstate ES_fsr = E ES_fsr ∧
      (machine_thread_get_state c
          (machine_thread_set_state c thread c.ARM_EXCEPTION_STATE E count).2
          c.ARM_EXCEPTION_STATE G0 count0).tstate ES_far = E ES_far ∧
      (machine_thread_get_state c
          (machine_thread_set_state c thread c.ARM_EXCEPTION_STATE E count).2
          c.ARM_EXCEPTION_STATE G0 count0).tstate ES_exception = E ES_exception) := by
  refine ⟨fun h h0 => ?_, fun h h0 => ?_⟩
  · rw [set_state_vfp_state c thread F count h]
    obtain ⟨g1, -, -, g4, g5, -⟩ := get_state_vfp_state c
      { thread with machine := { thread.machine with
          vfp_regs := { r := fun i => F i.val, fpscr := F VFP_fpscr } } } G0 count0 h0
    exact ⟨rfl, g1, g4, g5⟩
  · rw [set_state_exception_state c thread E count h]
    obtain ⟨g1, -, -, g4, g5, g6, -⟩ := get_state_exception_state c
      { thread with machine := { thread.machine with
          es := { fsr := E ES_fsr, far := E ES_far, exception := E ES_exception } } }
      G0 count0 h0
    exact ⟨rfl, g1, g4, g5, g6⟩

/-- Witness of C18 on the redirected thread with the buffer `succ_buffer`: register 63
comes back as 64, `fpscr` as 65 and `exception` as 3. -/
theorem vfp_exception_roundtrip_witness :
    (machine_thread_get_state mach_consts
        (machine_thread_set_state mach_consts redirected_thread mach_consts.ARM_VFP_STATE
          succ_buffer 65).2
        mach_consts.ARM_VFP_STATE zero_buffer 65).tstate 63 = 64 ∧
    (machine_thread_get_state mach_consts
        (machine_thread_set_state mach_consts redirected_thread mach_consts.ARM_VFP_STATE
          succ_buffer 65).2
        mach_consts.ARM_VFP_STATE zero_buffer 65).tstate VFP_fpscr = 65 ∧
    (machine_thread_get_state mach_consts
        (machine_thread_set_state mach_consts redirected_thread mach_consts.ARM_EXCEPTION_STATE
          succ_buffer 65).2
        mach_consts.ARM_EXCEPTION_STATE zero_buffer 65).tstate ES_exception = 3 :=
  ⟨((vfp_exception_roundtrip mach_consts redirected_thread succ_buffer succ_buffer zero_buffer
      65 65).1 (by decide) (by decide)).2.2.1 63,
    ((vfp_exception_roundtrip mach_consts redirected_thread succ_buffer succ_buffer zero_buffer
      65 65).1 (by decide) (by decide)).2.2.2,
    ((vfp_exception_roundtrip mach_consts redirected_thread succ_buffer succ_buffer zero_buffer
      65 65).2 (by decide) (by decide)).2.2.2.2⟩

/-- C19: a successful Set of `ARM_THREAD_STATE` leaves the floating-point state, the
exception state, the reference `uss` and the storage outside the thread
unchanged; a successful Set of `ARM_VFP_STATE` changes only the floating-point
state; a successful Set of `ARM_EXCEPTION_STATE` changes only the exception
state; a successful Set of `ARM_DEBUG_STATE` changes nothing. -/
theorem set_state_frame (c : thread_status_consts) (thread : thread_t)
    (tstate : thread_state_t) (count : Nat) :
    (ARM_THREAD_STATE_COUNT ≤ count →
      (machine_thread_set_state c thread c.ARM_THREAD_STATE tstate count).1 = KERN_SUCCESS ∧
      (machine_thread_set_state c thread c.ARM_THREAD_STATE tstate count).2.machine.vfp_regs
        = thread.machine.vfp_regs ∧
      (machine_thread_set_state c thread c.ARM_THREAD_STATE tstate count).2.machine.es
        = thread.machine.es ∧
      (machine_thread_set_state c thread c.ARM_THREAD_STATE tstate count).2.machine.uss
        = thread.machine.uss ∧
      (machine_thread_set_state c thread c.ARM_THREAD_STATE tstate count).2.saved
        = thread.saved) ∧
    (ARM_VFP_STATE_COUNT ≤ count →
      (machine_thread_set_state c thread c.ARM_VFP_STATE tstate count).1 = KERN_SUCCESS ∧
      (machine_thread_set_state c thread c.ARM_VFP_STATE tstate count).2.machine.user_regs
        = thread.machine.user_regs ∧
      (machine_thread_set_state c thread c.ARM_VFP_STATE tstate count).2.machine.es
        = thread.machine.es ∧
      (machine_thread_set_state c thread c.ARM_VFP_STATE tstate count).2.machine.uss
        = thread.machine.uss ∧
      (machine_thread_set_state c thread c.ARM_VFP_STATE tstate count).2.saved
        = thread.saved) ∧
    (ARM_EXCEPTION_STATE_COUNT ≤ count →
      (machine_thread_set_state c thread c.ARM_EXCEPTION_STATE tstate count).1
        = KERN_SUCCESS ∧
      (machine_thread_set_state c thread c.ARM_EXCEPTION_STATE tstate count).2.machine.user_regs
        = thread.machine.user_regs ∧
      (machine_thread_set_state c thread c.ARM_EXCEPTION_STATE tstate count).2.machine.vfp_regs
        = thread.machine.vfp_regs ∧
      (machine_thread_set_state c thread c.ARM_EXCEPTION_STATE tstate count).2.machine.uss
        = thread.machine.uss ∧
      (machine_thread_set_state c thread c.ARM_EXCEPTION_STATE tstate count).2.saved
        = thread.saved) ∧
    (c.ARM_DEBUG_STATE_COUNT ≤ count →
      machine_thread_set_state c thread c.ARM_DEBUG_STATE tstate count
        = (KERN_SUCCESS, thread)) := by
  refine ⟨fun h => ?_, fun h => ?_, fun h => ?_, fun h => ?_⟩
  · rw [set_state_thread_state c thread tstate count h]
    exact ⟨rfl, rfl, rfl, rfl, rfl⟩
  · rw [set_state_vfp_state c thread tstate count h]
    exact ⟨rfl, rfl, rfl, rfl, rfl⟩
  · rw [set_state_exception_state c thread tstate count h]
    exact ⟨rfl, rfl, rfl, rfl, rfl⟩
  · exact set_state_debug_state c thread tstate count h

/-- Witness of C19 on the redirected thread: after a general-purpose Set the reference
still designates the area at address 0 and that area still holds zeros, and a
debug Set returns the thread as it was. -/
theorem set_state_frame_witness :
    (machine_thread_set_state mach_consts redirected_thread mach_consts.ARM_THREAD_STATE
        succ_buffer 17).2.machine.uss = saved_state_ptr.elsewhere 0 ∧
    ((machine_thread_set_state mach_consts redirected_thread mach_consts.ARM_THREAD_STATE
        succ_buffer 17).2.saved 0).sp = 0 ∧
    (machine_thread_set_state mach_consts redirected_thread mach_consts.ARM_DEBUG_STATE
        succ_buffer 64).1 = KERN_SUCCESS := by
  refine ⟨?_, ?_, ?_⟩
  · rw [((set_state_frame mach_consts redirected_thread succ_buffer 17).1 (by decide)).2.2.2.1]
    rfl
  · rw [((set_state_frame mach_consts redirected_thread succ_buffer 17).1 (by decide)).2.2.2.2]
    rfl
  · rw [(set_state_frame mach_consts redirected_thread succ_buffer 64).2.2.2 (by decide)]

/-! ## Stack, entry point and work-queue state -/

/-- C16 at its failing input: the Get of `ARM_DEBUG_STATE` with count 65, above
`ARM_DEBUG_STATE_COUNT = 64`, succeeds and writes nothing but leaves the count
at 65 where the claim requires it to be set to `ARM_DEBUG_STATE_COUNT`. -/
theorem get_state_debug_count_unset :
    mach_consts.ARM_DEBUG_STATE_COUNT = 64 ∧
    (machine_thread_get_state mach_consts own_thread mach_consts.ARM_DEBUG_STATE
      succ_buffer 65).ret = KERN_SUCCESS ∧
    (machine_thread_get_state mach_consts own_thread mach_consts.ARM_DEBUG_STATE
      succ_buffer 65).count = 65 ∧
    (machine_thread_get_state mach_consts own_thread mach_consts.ARM_DEBUG_STATE
      succ_buffer 65).count ≠ mach_consts.ARM_DEBUG_STATE_COUNT := by
  decide

/-- C17: `thread_adjuserstack thread adj` stores `(sp + adj) mod 2 ^ 32` as the new
stack pointer of the thread's own storage, returns exactly the stored value
(a 32-bit value, zero-extended), and changes no other field of the thread. -/
theorem adjuserstack_effect (thread : thread_t) (adj : Int) :
    (((thread_adjuserstack thread adj).1.machine.user_regs.sp : Nat) : Int)
      = ((thread.machine.user_regs.sp : Int) + adj) % 2 ^ 32 ∧
    (thread_adjuserstack thread adj).2 = (thread_adjuserstack thread adj).1.machine.user_regs.sp ∧
    (thread_adjuserstack thread adj).2 < 2 ^ 32 ∧
    (thread_adjuserstack thread adj).1.machine.user_regs.r = thread.machine.user_regs.r ∧
    (thread_adjuserstack thread adj).1.machine.user_regs.lr = thread.machine.user_regs.lr ∧
    (thread_adjuserstack thread adj).1.machine.user_regs.pc = thread.machine.user_regs.pc ∧
    (thread_adjuserstack thread adj).1.machine.user_regs.cpsr = thread.machine.user_regs.cpsr ∧
    (thread_adjuserstack thread adj).1.machine.vfp_regs = thread.machine.vfp_regs ∧
    (thread_adjuserstack thread adj).1.machine.es = thread.machine.es ∧
    (thread_adjuserstack thread adj).1.machine.uss = thread.machine.uss ∧
    (thread_adjuserstack thread adj).1.saved = thread.saved := by
  have hpos : (0 : Int) < 2 ^ 32 := by norm_num
  have hnn : 0 ≤ ((thread.machine.user_regs.sp : Int) + adj) % 2 ^ 32 :=
    Int.emod_nonneg _ (ne_of_gt hpos)
  have hlt : ((thread.machine.user_regs.sp : Int) + adj) % 2 ^ 32 < 2 ^ 32 :=
    Int.emod_lt_of_pos _ hpos
  refine ⟨?_, rfl, ?_, rfl, rfl, rfl, rfl, rfl, rfl, rfl, rfl⟩
  · simp only [thread_adjuserstack, int_to_u32]
    exact Int.toNat_of_nonneg hnn
  · simp only [thread_adjuserstack, int_to_u32]
    have h := Int.toNat_of_nonneg hnn
    have : ((((thread.machine.user_regs.sp : Int) + adj) % 2 ^ 32).toNat : Int) < 2 ^ 32 := by
      rw [h]; exact hlt
    exact_mod_cast this

/-- C20: `thread_userstack` returns `KERN_INVALID_ARGUMENT` exactly when the flavor is
not `ARM_THREAD_STATE` or the count is below `ARM_THREAD_STATE_COUNT`, and then
the output is the prior value if that was non-zero and `USRSTACK` (0x2FE00000)
if it was zero; likewise `thread_entrypoint`, with `VM_MIN_ADDRESS`. -/
theorem rejected_query_output (c : thread_status_consts) (flavor : Int)
    (tstate : thread_state_t) (count prior : Nat) :
    ((thread_userstack c flavor tstate count prior).1 = KERN_INVALID_ARGUMENT ↔
      (flavor ≠ c.ARM_THREAD_STATE ∨ count < ARM_THREAD_STATE_COUNT)) ∧
    ((thread_userstack c flavor tstate count prior).1 = KERN_INVALID_ARGUMENT →
      (thread_userstack c flavor tstate count prior).2
        = if prior = 0 then USRSTACK else prior) ∧
    ((thread_entrypoint c flavor tstate count prior).1 = KERN_INVALID_ARGUMENT ↔
      (flavor ≠ c.ARM_THREAD_STATE ∨ count < ARM_THREAD_STATE_COUNT)) ∧
    ((thread_entrypoint c flavor tstate count prior).1 = KERN_INVALID_ARGUMENT →
      (thread_entrypoint c flavor tstate count prior).2
        = if prior = 0 then c.VM_MIN_ADDRESS else prior) ∧
    USRSTACK = 0x2FE00000 := by
  refine ⟨?_, ?_, ?_, ?_, rfl⟩
  · by_cases hf : flavor = c.ARM_THREAD_STATE <;>
      by_cases hc : count < ARM_THREAD_STATE_COUNT <;>
      simp [thread_userstack, hf, hc]
  · by_cases hf : flavor = c.ARM_THREAD_STATE <;>
      by_cases hc : count < ARM_THREAD_STATE_COUNT <;>
      simp [thread_userstack, hf, hc]
  · by_cases hf : flavor = c.ARM_THREAD_STATE <;>
      by_cases hc : count < ARM_THREAD_STATE_COUNT <;>
      simp [thread_entrypoint, hf, hc]
  · by_cases hf : flavor = c.ARM_THREAD_STATE <;>
      by_cases hc : count < ARM_THREAD_STATE_COUNT <;>
      simp [thread_entrypoint, hf, hc]

/-- Witness of C20: an undersized count with prior output 0 gives `USRSTACK`, an unknown
flavor with prior output 5 leaves 5. -/
theorem rejected_query_output_witness :
    (thread_userstack mach_consts mach_consts.ARM_THREAD_STATE succ_buffer 16 0).2
      = 0x2FE00000 ∧
    (thread_userstack mach_consts 99 succ_buffer 17 5).2 = 5 ∧
    (thread_entrypoint mach_consts 99 succ_buffer 17 5).2 = 5 :=
  ⟨(rejected_query_output mach_consts mach_consts.ARM_THREAD_STATE succ_buffer 16 0).2.1
      (by decide),
    (rejected_query_output mach_consts 99 succ_buffer 17 5).2.1 (by decide),
    (rejected_query_output mach_consts 99 succ_buffer 17 5).2.2.2.1 (by decide)⟩

/-- On a thread whose reference designates its own storage, `thread_set_wq_state32`
completes and the own storage becomes: `r[0..5]`, `sp`, `lr`, `pc` from the
buffer, the control word through the sanitiser, `r[6..12]` zero; nothing else
changes, and the flag for the current thread plays no part. -/
theorem set_wq_state32_eq (thread : thread_t) (tstate : thread_state_t) (b : Bool)
    (hown : thread.machine.uss = saved_state_ptr.user_regs) :
    thread_set_wq_state32 thread tstate b
      = some { thread with machine := { thread.machine with
          user_regs :=
            { r := fun i => if i.val < 6 then tstate i.val else 0
              sp := tstate TS_sp
              lr := tstate TS_lr
              pc := tstate TS_pc
              cpsr := sanitise_cpsr (tstate TS_cpsr) } } } := by
  obtain ⟨⟨ur, uss, vfp, es⟩, saved⟩ := thread
  simp only [] at hown
  subst hown
  have hr : ∀ i : Fin 13,
      Function.update (Function.update (Function.update (Function.update (Function.update
        (Function.update (fun _ : Fin 13 => 0) 0 (tstate 0)) 1 (tstate 1)) 2 (tstate 2))
        3 (tstate 3)) 4 (tstate 4)) 5 (tstate 5) i
      = if i.val < 6 then tstate i.val else 0 := by
    intro i
    fin_cases i <;> simp [Function.update]
  simp only [thread_set_wq_state32, if_true, thread_t.store, thread_t.load,
    arm_thread_state.set_r, arm_thread_state.zero, ite_self, funext hr]

/-- C11: on a target whose reference designates its own storage, `thread_set_wq_state32`
completes, with the same result whether or not the target is the current thread,
and the target's general-purpose storage then has `r[0..5]`, `sp`, `lr`, `pc`
equal to the buffer's, `cpsr` equal to `sanitise_cpsr` of the buffer's and
`r[6..12]` equal to 0, whatever it held before. -/
theorem set_wq_state32_effect (thread : thread_t) (S : thread_state_t)
    (hown : thread.machine.uss = saved_state_ptr.user_regs) :
    ∃ t' : thread_t,
      thread_set_wq_state32 thread S true = some t' ∧
      thread_set_wq_state32 thread S false = some t' ∧
      (∀ i : Fin 13, i.val < 6 → t'.machine.user_regs.r i = S i.val) ∧
      (∀ i : Fin 13, 6 ≤ i.val → t'.machine.user_regs.r i = 0) ∧
      t'.machine.user_regs.sp = S TS_sp ∧
      t'.machine.user_regs.lr = S TS_lr ∧
      t'.machine.user_regs.pc = S TS_pc ∧
      t'.machine.user_regs.cpsr = sanitise_cpsr (S TS_cpsr) := by
  refine ⟨_, set_wq_state32_eq thread S true hown, set_wq_state32_eq thread S false hown,
    fun i hi => ?_, fun i hi => ?_, rfl, rfl, rfl, rfl⟩
  · simp [hi]
  · simp [not_lt.mpr hi]

/-- Witness of C11: the call completes on `own_thread`, with the same result for both
values of the current-thread flag. -/
theorem set_wq_state32_effect_witness :
    (thread_set_wq_state32 own_thread succ_buffer true).isSome = true ∧
    thread_set_wq_state32 own_thread succ_buffer true
      = thread_set_wq_state32 own_thread succ_buffer false := by
  obtain ⟨t', h1, h2, -⟩ := set_wq_state32_effect own_thread succ_buffer rfl
  rw [h1, h2]
  exact ⟨rfl, rfl⟩

/-- What a restore of a present snapshot does: both Sets are performed. -/
theorem act_thread_catt_eq (c : thread_status_consts) (thr_act : thread_t)
    (ic : arm_act_context) :
    act_thread_catt c thr_act (some ic)
      = { thr_act with machine := { thr_act.machine with
            user_regs :=
              { r := fun i => ic.ss i.val
                sp := ic.ss TS_sp
                lr := ic.ss TS_lr
                pc := ic.ss TS_pc
                cpsr := sanitise_cpsr (ic.ss TS_cpsr) }
            vfp_regs := { r := fun i => ic.fs i.val, fpscr := ic.fs VFP_fpscr } } } := by
  simp only [act_thread_catt]
  rw [set_state_thread_state c _ _ _ le_rfl]
  simp only [if_true]
  rw [set_state_vfp_state c _ _ _ le_rfl]

/-- C15: `act_thread_catt` leaves the thread unchanged for an absent snapshot; for a
present snapshot `B` the general-purpose Set succeeds, and afterwards the thread's
own general-purpose storage is `B`'s general-purpose part with the control word
sanitised, the floating-point state is `B`'s floating-point part, and the
exception state, the reference and the storage outside the thread are unchanged. -/
theorem act_thread_catt_effect (c : thread_status_consts) (thr_act : thread_t)
    (B : arm_act_context) :
    act_thread_catt c thr_act none = thr_act ∧
    (machine_thread_set_state c thr_act c.ARM_THREAD_STATE B.ss ARM_THREAD_STATE_COUNT).1
      = KERN_SUCCESS ∧
    (act_thread_catt c thr_act (some B)).machine.user_regs
      = { r := fun i => B.ss i.val
          sp := B.ss TS_sp
          lr := B.ss TS_lr
          pc := B.ss TS_pc
          cpsr := sanitise_cpsr (B.ss TS_cpsr) } ∧
    (act_thread_catt c thr_act (some B)).machine.vfp_regs
      = { r := fun i => B.fs i.val, fpscr := B.fs VFP_fpscr } ∧
    (act_thread_catt c thr_act (some B)).machine.es = thr_act.machine.es ∧
    (act_thread_catt c thr_act (some B)).machine.uss = thr_act.machine.uss ∧
    (act_thread_catt c thr_act (some B)).saved = thr_act.saved := by
  refine ⟨rfl, ?_, ?_⟩
  · rw [set_state_thread_state c thr_act B.ss _ le_rfl]
  · rw [act_thread_catt_eq]
    exact ⟨rfl, rfl, rfl, rfl, rfl⟩

/-- C14 at its failing input: the save returns a snapshot whose general-purpose part is
what a Get of `ARM_THREAD_STATE` returns (word 1 is 2), but whose floating-point
part also holds general register 1 in word 1, whereas a Get of `ARM_VFP_STATE`
returns 1 there. -/
theorem csave_fs_is_not_vfp :
    (act_thread_csave mach_consts established_thread (some fresh_block)).2.isSome = true ∧
    ((act_thread_csave mach_consts established_thread (some fresh_block)).2.getD
        fresh_block).ss 1
      = (machine_thread_get_state mach_consts established_thread mach_consts.ARM_THREAD_STATE
          zero_buffer 17).tstate 1 ∧
    ((act_thread_csave mach_consts established_thread (some fresh_block)).2.getD
        fresh_block).fs 1 = 2 ∧
    (machine_thread_get_state mach_consts established_thread mach_consts.ARM_VFP_STATE
        zero_buffer 65).tstate 1 = 1 := by
  decide

/-- Every Set leaves the own control word as it was or stores a sanitised one. -/
theorem set_state_cpsr (c : thread_status_consts) (thread : thread_t) (flavor : Int)
    (tstate : thread_state_t) (count : Nat) :
    (machine_thread_set_state c thread flavor tstate count).2.machine.user_regs.cpsr
        = thread.machine.user_regs.cpsr ∨
    (machine_thread_set_state c thread flavor tstate count).2.machine.user_regs.cpsr
        = sanitise_cpsr (tstate TS_cpsr) := by
  by_cases f1 : flavor = c.ARM_THREAD_STATE
  · subst f1
    by_cases hc : count < ARM_THREAD_STATE_COUNT
    · left
      simp [machine_thread_set_state, set_state_validate, hc]
    · right
      rw [set_state_thread_state c thread tstate count (not_lt.mp hc)]
  · left
    unfold machine_thread_set_state set_state_validate
    simp only [f1, if_false]
    split_ifs <;> rfl

/-- C12: the property that the thread's own control word is a fixed point of
`sanitise_cpsr` is preserved by `machine_thread_set_state` (every flavor and
count), `act_thread_catt`, `thread_setuserstack`, `thread_adjuserstack`,
`thread_setentrypoint`, `thread_set_parent`, `thread_set_child` and
`thread_set_wq_state32`, and it is established, whatever the control word
supplied and whatever the thread held, by every successful Set of
`ARM_THREAD_STATE` and by every completed `thread_set_wq_state32` (which
completes on every self-referencing thread). -/
theorem cpsr_never_unsanitised (c : thread_status_consts) (t : thread_t) :
    (∀ (flavor : Int) (tstate : thread_state_t) (count : Nat), cpsr_sanitised t →
      cpsr_sanitised (machine_thread_set_state c t flavor tstate count).2) ∧
    (∀ (tstate : thread_state_t) (count : Nat), ARM_THREAD_STATE_COUNT ≤ count →
      (machine_thread_set_state c t c.ARM_THREAD_STATE tstate count).1 = KERN_SUCCESS ∧
      cpsr_sanitised (machine_thread_set_state c t c.ARM_THREAD_STATE tstate count).2) ∧
    (∀ (tstate : thread_state_t) (b : Bool) (t' : thread_t),
      thread_set_wq_state32 t tstate b = some t' → cpsr_sanitised t') ∧
    (∀ (tstate : thread_state_t) (b : Bool), t.machine.uss = saved_state_ptr.user_regs →
      (thread_set_wq_state32 t tstate b).isSome = true) ∧
    (∀ ctx : Option arm_act_context, cpsr_sanitised t →
      cpsr_sanitised (act_thread_catt c t ctx)) ∧
    (∀ user_stack : Nat, cpsr_sanitised t →
      cpsr_sanitised (thread_setuserstack t user_stack)) ∧
    (∀ adj : Int, cpsr_sanitised t → cpsr_sanitised (thread_adjuserstack t adj).1) ∧
    (∀ entry : Nat, cpsr_sanitised t → cpsr_sanitised (thread_setentrypoint t entry)) ∧
    (∀ pid : Int, cpsr_sanitised t → cpsr_sanitised (thread_set_parent t pid)) ∧
    (∀ (pid : Int) (t' : thread_t), thread_set_child t pid = some t' →
      cpsr_sanitised t → cpsr_sanitised t') := by
  refine ⟨fun flavor tstate count h => ?_, fun tstate count h => ?_,
    fun tstate b t' h => ?_, fun tstate b h => ?_, fun ctx h => ?_, fun _ h => h,
    fun _ h => h, fun _ h => h, fun pid h => ?_, fun pid t' ht h => ?_⟩
  · unfold cpsr_sanitised at h ⊢
    rcases set_state_cpsr c t flavor tstate count with e | e
    · rw [e]; exact h
    · rw [e]; exact (sanitise_cpsr_twice _).symm
  · rw [set_state_thread_state c t tstate count h]
    exact ⟨rfl, (sanitise_cpsr_twice _).symm⟩
  · by_cases hown : t.machine.uss = saved_state_ptr.user_regs
    · rw [set_wq_state32_eq t tstate b hown] at h
      cases h
      exact (sanitise_cpsr_twice _).symm
    · simp [thread_set_wq_state32, hown] at h
  · rw [set_wq_state32_eq t tstate b h]
    rfl
  · cases ctx with
    | none => exact h
    | some ic =>
      rw [act_thread_catt_eq]
      exact (sanitise_cpsr_twice _).symm
  · obtain ⟨⟨ur, uss, vfp, es⟩, saved⟩ := t
    unfold cpsr_sanitised at h ⊢
    cases uss <;> exact h
  · obtain ⟨⟨ur, uss, vfp, es⟩, saved⟩ := t
    unfold cpsr_sanitised at h ⊢
    by_cases hown : uss = saved_state_ptr.user_regs
    · subst hown
      simp only [thread_set_child, if_true, Option.some.injEq] at ht
      subst ht
      exact h
    · simp [thread_set_child, hown] at ht

/-- Witness of C12: the control word `0xD3` of `raw_thread` is not a fixed point of the
sanitiser; after a Set of `ARM_THREAD_STATE` the property holds, and it still
holds on `established_thread` after `thread_adjuserstack`. -/
theorem cpsr_never_unsanitised_witness :
    ¬ cpsr_sanitised raw_thread ∧
    cpsr_sanitised
      (machine_thread_set_state mach_consts raw_thread mach_consts.ARM_THREAD_STATE
        succ_buffer 17).2 ∧
    cpsr_sanitised (thread_adjuserstack established_thread (-8)).1 :=
  ⟨by unfold cpsr_sanitised; decide,
    ((cpsr_never_unsanitised mach_consts raw_thread).2.1 succ_buffer 17 (by decide)).2,
    (cpsr_never_unsanitised mach_consts established_thread).2.2.2.2.2.2.1 (-8)
      (by unfold cpsr_sanitised; decide)⟩

end ArmStatus
